import Mathlib

/-!
Shallow embedding of the door/pickup catalog and patch logic of the
randomprime door-randomizer (sources: src/door_meta.rs, src/lib.rs,
src/patches.rs, src/pickup_meta.rs), together with theorems settling the
frozen claims about it.

Machine integers (`u8`, `u32`) are modelled as `Nat`, with an explicit
`% 256` where `u8` overflow matters (release-mode Rust wraps).  Four-byte
resource type tags (`FourCC`) are modelled as `String`.
-/

/-! Damage vulnerability records, from src/door_meta.rs.  The Rust enum
`TypeVulnerability` is cast to `u32` everywhere, so its variants are
modelled directly as the numerals the source assigns. -/

namespace TypeVulnerability

def Normal : Nat := 0x1

def Reflect : Nat := 0x2

def Immune : Nat := 0x3

end TypeVulnerability

structure ChargedBeams where
  power : Nat
  ice : Nat
  wave : Nat
  plasma : Nat
  phazon : Nat
deriving DecidableEq, Repr

structure BeamCombos where
  power : Nat
  ice : Nat
  wave : Nat
  plasma : Nat
  phazon : Nat
deriving DecidableEq, Repr

structure DamageVulnerability where
  power : Nat
  ice : Nat
  wave : Nat
  plasma : Nat
  bomb : Nat
  power_bomb : Nat
  missile : Nat
  boost_ball : Nat
  phazon : Nat
  enemy_weapon0 : Nat
  enemy_weapon1 : Nat
  enemy_weapon2 : Nat
  enemy_weapon3 : Nat
  unknown_weapon0 : Nat
  unknown_weapon1 : Nat
  unknown_weapon2 : Nat
  charged_beams : ChargedBeams
  beam_combos : BeamCombos
deriving DecidableEq, Repr

/-! The door variant catalog (enum `DoorType` in src/door_meta.rs). -/

inductive DoorType where
  | Blue
  | Purple
  | White
  | Red
  | PowerOnly
  | PowerBomb
  | Bomb
  | Boost
  | Missile
  | Charge
  | Super
  | Wavebuster
  | Icespreader
  | Flamethrower
  | Ai
  | Disabled
  | VerticalBlue
  | VerticalPowerOnly
  | VerticalPurple
  | VerticalWhite
  | VerticalRed
  | VerticalPowerBomb
  | VerticalBomb
  | VerticalMissile
  | VerticalCharge
  | VerticalSuper
  | VerticalDisabled
  | VerticalWavebuster
  | VerticalIcespreader
  | VerticalFlamethrower
  | VerticalAi
deriving DecidableEq, Repr

inductive BlastShieldType where
  | Missile
  | PowerBomb
  | Super
  | Wavebuster
  | Icespreader
  | Flamethrower
deriving DecidableEq, Repr

def DoorType.is_vertical : DoorType → Bool
  | DoorType.VerticalBlue => true
  | DoorType.VerticalPowerOnly => true
  | DoorType.VerticalPurple => true
  | DoorType.VerticalWhite => true
  | DoorType.VerticalRed => true
  | DoorType.VerticalPowerBomb => true
  | DoorType.VerticalBomb => true
  | DoorType.VerticalMissile => true
  | DoorType.VerticalCharge => true
  | DoorType.VerticalSuper => true
  | DoorType.VerticalDisabled => true
  | DoorType.VerticalWavebuster => true
  | DoorType.VerticalIcespreader => true
  | DoorType.VerticalFlamethrower => true
  | DoorType.VerticalAi => true
  | _ => false

def DoorType.to_vertical : DoorType → DoorType
  | DoorType.Blue => DoorType.VerticalBlue
  | DoorType.PowerOnly => DoorType.VerticalPowerOnly
  | DoorType.Purple => DoorType.VerticalPurple
  | DoorType.White => DoorType.VerticalWhite
  | DoorType.Red => DoorType.VerticalRed
  | DoorType.PowerBomb => DoorType.VerticalPowerBomb
  | DoorType.Bomb => DoorType.VerticalBomb
  | DoorType.Missile => DoorType.VerticalMissile
  | DoorType.Charge => DoorType.VerticalCharge
  | DoorType.Super => DoorType.VerticalSuper
  | DoorType.Disabled => DoorType.VerticalDisabled
  | DoorType.Wavebuster => DoorType.VerticalWavebuster
  | DoorType.Icespreader => DoorType.VerticalIcespreader
  | DoorType.Flamethrower => DoorType.VerticalFlamethrower
  | DoorType.Ai => DoorType.VerticalAi
  | d => d

/-! Modelled from the spec: the `custom_assets::custom_asset_ids` module is
not among the provided sources (src/lib.rs holds only the pickup half of
the id space, starting at 0xDEAF0000).  The spec says tool-synthesized
resource identifiers occupy a fixed high sentinel range distinct from the
original-content id space, so the door/blast-shield ids referenced by
src/door_meta.rs are modelled as distinct constants in that range.  The
one exception is `AI_DOOR_CMDL`: `DoorType::dependencies` special-cases a
door whose shield model is the vanilla t-posing chozo ghost CMDL
0xDAAC77CB, and the Ai door is the only door using that model, so
`AI_DOOR_CMDL` is modelled as that vanilla id. -/
namespace custom_asset_ids

def POWER_BOMB_DOOR_CMDL : Nat := 0xDEAF0100

def MORPH_BALL_BOMB_DOOR_CMDL : Nat := 0xDEAF0101

def MISSILE_DOOR_CMDL : Nat := 0xDEAF0102

def CHARGE_DOOR_CMDL : Nat := 0xDEAF0103

def SUPER_MISSILE_DOOR_CMDL : Nat := 0xDEAF0104

def DISABLED_DOOR_CMDL : Nat := 0xDEAF0105

def WAVEBUSTER_DOOR_CMDL : Nat := 0xDEAF0106

def ICESPREADER_DOOR_CMDL : Nat := 0xDEAF0107

def FLAMETHROWER_DOOR_CMDL : Nat := 0xDEAF0108

def AI_DOOR_CMDL : Nat := 0xDAAC77CB

def VERTICAL_RED_DOOR_CMDL : Nat := 0xDEAF0110

def VERTICAL_POWER_BOMB_DOOR_CMDL : Nat := 0xDEAF0111

def VERTICAL_MORPH_BALL_BOMB_DOOR_CMDL : Nat := 0xDEAF0112

def VERTICAL_MISSILE_DOOR_CMDL : Nat := 0xDEAF0113

def VERTICAL_CHARGE_DOOR_CMDL : Nat := 0xDEAF0114

def VERTICAL_SUPER_MISSILE_DOOR_CMDL : Nat := 0xDEAF0115

def VERTICAL_DISABLED_DOOR_CMDL : Nat := 0xDEAF0116

def VERTICAL_WAVEBUSTER_DOOR_CMDL : Nat := 0xDEAF0117

def VERTICAL_ICESPREADER_DOOR_CMDL : Nat := 0xDEAF0118

def VERTICAL_FLAMETHROWER_DOOR_CMDL : Nat := 0xDEAF0119

def VERTICAL_AI_DOOR_CMDL : Nat := 0xDEAF011A

def POWER_BOMB_DOOR_TXTR : Nat := 0xDEAF0120

def MORPH_BALL_BOMB_DOOR_TXTR : Nat := 0xDEAF0121

def SUPER_MISSILE_DOOR_TXTR : Nat := 0xDEAF0122

def WAVEBUSTER_DOOR_TXTR : Nat := 0xDEAF0123

def ICESPREADER_DOOR_TXTR : Nat := 0xDEAF0124

def FLAMETHROWER_DOOR_TXTR : Nat := 0xDEAF0125

def AI_DOOR_TXTR : Nat := 0xDEAF0126

def POWER_BOMB_BLAST_SHIELD_CMDL : Nat := 0xDEAF0130

def SUPER_BLAST_SHIELD_CMDL : Nat := 0xDEAF0131

def WAVEBUSTER_BLAST_SHIELD_CMDL : Nat := 0xDEAF0132

def ICESPREADER_BLAST_SHIELD_CMDL : Nat := 0xDEAF0133

def FLAMETHROWER_BLAST_SHIELD_CMDL : Nat := 0xDEAF0134

def POWER_BOMB_BLAST_SHIELD_TXTR : Nat := 0xDEAF0135

def SUPER_BLAST_SHIELD_TXTR : Nat := 0xDEAF0136

def WAVEBUSTER_BLAST_SHIELD_TXTR : Nat := 0xDEAF0137

def ICESPREADER_BLAST_SHIELD_TXTR : Nat := 0xDEAF0138

def FLAMETHROWER_BLAST_SHIELD_TXTR : Nat := 0xDEAF0139

def BLAST_SHIELD_ALT_TXTR0 : Nat := 0xDEAF013A

def BLAST_SHIELD_ALT_TXTR1 : Nat := 0xDEAF013B

def BLAST_SHIELD_ALT_TXTR2 : Nat := 0xDEAF013C

def POWER_BOMB_BLAST_SHIELD_SCAN : Nat := 0xDEAF0140

def SUPER_BLAST_SHIELD_SCAN : Nat := 0xDEAF0141

def WAVEBUSTER_BLAST_SHIELD_SCAN : Nat := 0xDEAF0142

def ICESPREADER_BLAST_SHIELD_SCAN : Nat := 0xDEAF0143

def FLAMETHROWER_BLAST_SHIELD_SCAN : Nat := 0xDEAF0144

def POWER_BOMB_BLAST_SHIELD_STRG : Nat := 0xDEAF0145

def SUPER_BLAST_SHIELD_STRG : Nat := 0xDEAF0146

def WAVEBUSTER_BLAST_SHIELD_STRG : Nat := 0xDEAF0147

def ICESPREADER_BLAST_SHIELD_STRG : Nat := 0xDEAF0148

def FLAMETHROWER_BLAST_SHIELD_STRG : Nat := 0xDEAF0149

end custom_asset_ids

/-- Modelled from the spec: `ResId::invalid()` comes from the external
`structs` crate; `BlastShieldType::dependencies` filters out the value
0xFFFFFFFF, which the spec calls the sentinel identifier, so `invalid`
is that sentinel. -/
def ResId.invalid : Nat := 0xFFFFFFFF

def DoorType.shield_cmdl : DoorType → Nat
  | DoorType.Blue => 0x0734977A
  | DoorType.PowerOnly => 0x0734977A
  | DoorType.Purple => 0x33188D1B
  | DoorType.White => 0x59649E9D
  | DoorType.Red => 0xBBBA1EC7
  | DoorType.Boost => 0x0734977A
  | DoorType.PowerBomb => custom_asset_ids.POWER_BOMB_DOOR_CMDL
  | DoorType.Bomb => custom_asset_ids.MORPH_BALL_BOMB_DOOR_CMDL
  | DoorType.Missile => custom_asset_ids.MISSILE_DOOR_CMDL
  | DoorType.Charge => custom_asset_ids.CHARGE_DOOR_CMDL
  | DoorType.Super => custom_asset_ids.SUPER_MISSILE_DOOR_CMDL
  | DoorType.Disabled => custom_asset_ids.DISABLED_DOOR_CMDL
  | DoorType.Wavebuster => custom_asset_ids.WAVEBUSTER_DOOR_CMDL
  | DoorType.Icespreader => custom_asset_ids.ICESPREADER_DOOR_CMDL
  | DoorType.Flamethrower => custom_asset_ids.FLAMETHROWER_DOOR_CMDL
  | DoorType.Ai => custom_asset_ids.AI_DOOR_CMDL
  | DoorType.VerticalBlue => 0x18D0AEE6
  | DoorType.VerticalPowerOnly => 0x18D0AEE6
  | DoorType.VerticalPurple => 0x095B0B93
  | DoorType.VerticalWhite => 0xB7A8A4C9
  | DoorType.VerticalRed => custom_asset_ids.VERTICAL_RED_DOOR_CMDL
  | DoorType.VerticalPowerBomb => custom_asset_ids.VERTICAL_POWER_BOMB_DOOR_CMDL
  | DoorType.VerticalBomb => custom_asset_ids.VERTICAL_MORPH_BALL_BOMB_DOOR_CMDL
  | DoorType.VerticalMissile => custom_asset_ids.VERTICAL_MISSILE_DOOR_CMDL
  | DoorType.VerticalCharge => custom_asset_ids.VERTICAL_CHARGE_DOOR_CMDL
  | DoorType.VerticalSuper => custom_asset_ids.VERTICAL_SUPER_MISSILE_DOOR_CMDL
  | DoorType.VerticalDisabled => custom_asset_ids.VERTICAL_DISABLED_DOOR_CMDL
  | DoorType.VerticalWavebuster => custom_asset_ids.VERTICAL_WAVEBUSTER_DOOR_CMDL
  | DoorType.VerticalIcespreader => custom_asset_ids.VERTICAL_ICESPREADER_DOOR_CMDL
  | DoorType.VerticalFlamethrower => custom_asset_ids.VERTICAL_FLAMETHROWER_DOOR_CMDL
  | DoorType.VerticalAi => custom_asset_ids.VERTICAL_AI_DOOR_CMDL

def DoorType.forcefield_txtr : DoorType → Nat
  | DoorType.Blue => 0x8A7F3683
  | DoorType.PowerOnly => 0x8A7F3683
  | DoorType.Purple => 0xF68DF7F1
  | DoorType.White => 0xBE4CD99D
  | DoorType.Red => 0xFC095F6C
  | DoorType.Boost => 0x8A7F3683
  | DoorType.PowerBomb => 0x1D588B22
  | DoorType.Bomb => 0xFC095F6C
  | DoorType.Missile => 0x8344BEC8
  | DoorType.Charge => 0x8A7F3683
  | DoorType.Super => 0xD5C17775
  | DoorType.Disabled => 0x717AABCE
  | DoorType.Wavebuster => 0xF68DF7F1
  | DoorType.Icespreader => 0xBE4CD99D
  | DoorType.Flamethrower => 0xFC095F6C
  | DoorType.Ai => 0x717AABCE
  | DoorType.VerticalBlue => DoorType.Blue.forcefield_txtr
  | DoorType.VerticalPowerOnly => DoorType.PowerOnly.forcefield_txtr
  | DoorType.VerticalPurple => DoorType.Purple.forcefield_txtr
  | DoorType.VerticalWhite => DoorType.White.forcefield_txtr
  | DoorType.VerticalRed => DoorType.Red.forcefield_txtr
  | DoorType.VerticalPowerBomb => DoorType.PowerBomb.forcefield_txtr
  | DoorType.VerticalBomb => DoorType.Bomb.forcefield_txtr
  | DoorType.VerticalMissile => DoorType.Missile.forcefield_txtr
  | DoorType.VerticalCharge => DoorType.Charge.forcefield_txtr
  | DoorType.VerticalSuper => DoorType.Super.forcefield_txtr
  | DoorType.VerticalDisabled => DoorType.Disabled.forcefield_txtr
  | DoorType.VerticalWavebuster => DoorType.Wavebuster.forcefield_txtr
  | DoorType.VerticalIcespreader => DoorType.Icespreader.forcefield_txtr
  | DoorType.VerticalFlamethrower => DoorType.Flamethrower.forcefield_txtr
  | DoorType.VerticalAi => DoorType.Ai.forcefield_txtr
termination_by d => if d.is_vertical then 1 else 0
decreasing_by all_goals decide

def DoorType.holorim_texture : DoorType → Nat
  | DoorType.Blue => 0x88ED4593
  | DoorType.PowerOnly => 0x88ED4593
  | DoorType.Purple => 0xAB031EA9
  | DoorType.White => 0xF6870C9F
  | DoorType.Red => 0x61A6945B
  | DoorType.Boost => 0x88ED4593
  | DoorType.PowerBomb => custom_asset_ids.POWER_BOMB_DOOR_TXTR
  | DoorType.Bomb => custom_asset_ids.MORPH_BALL_BOMB_DOOR_TXTR
  | DoorType.Missile => 0x459582C1
  | DoorType.Charge => 0xC7C8AF66
  | DoorType.Super => custom_asset_ids.SUPER_MISSILE_DOOR_TXTR
  | DoorType.Wavebuster => custom_asset_ids.WAVEBUSTER_DOOR_TXTR
  | DoorType.Icespreader => custom_asset_ids.ICESPREADER_DOOR_TXTR
  | DoorType.Flamethrower => custom_asset_ids.FLAMETHROWER_DOOR_TXTR
  | DoorType.Disabled => 0x717AABCE
  | DoorType.Ai => custom_asset_ids.AI_DOOR_TXTR
  | DoorType.VerticalBlue => DoorType.Blue.holorim_texture
  | DoorType.VerticalPowerOnly => DoorType.PowerOnly.holorim_texture
  | DoorType.VerticalPurple => DoorType.Purple.holorim_texture
  | DoorType.VerticalWhite => DoorType.White.holorim_texture
  | DoorType.VerticalRed => DoorType.Red.holorim_texture
  | DoorType.VerticalPowerBomb => DoorType.PowerBomb.holorim_texture
  | DoorType.VerticalBomb => DoorType.Bomb.holorim_texture
  | DoorType.VerticalMissile => DoorType.Missile.holorim_texture
  | DoorType.VerticalCharge => DoorType.Charge.holorim_texture
  | DoorType.VerticalSuper => DoorType.Super.holorim_texture
  | DoorType.VerticalDisabled => DoorType.Disabled.holorim_texture
  | DoorType.VerticalWavebuster => DoorType.Wavebuster.holorim_texture
  | DoorType.VerticalIcespreader => DoorType.Icespreader.holorim_texture
  | DoorType.VerticalFlamethrower => DoorType.Flamethrower.holorim_texture
  | DoorType.VerticalAi => DoorType.Ai.holorim_texture
termination_by d => if d.is_vertical then 1 else 0
decreasing_by all_goals decide

def DoorType.vulnerability : DoorType → DamageVulnerability
  | DoorType.Blue =>
    { power := TypeVulnerability.Normal, ice := TypeVulnerability.Normal
      wave := TypeVulnerability.Normal, plasma := TypeVulnerability.Normal
      bomb := TypeVulnerability.Normal, power_bomb := TypeVulnerability.Normal
      missile := TypeVulnerability.Normal, boost_ball := TypeVulnerability.Reflect
      phazon := TypeVulnerability.Normal
      enemy_weapon0 := TypeVulnerability.Immune, enemy_weapon1 := TypeVulnerability.Immune
      enemy_weapon2 := TypeVulnerability.Immune, enemy_weapon3 := TypeVulnerability.Immune
      unknown_weapon0 := TypeVulnerability.Immune, unknown_weapon1 := TypeVulnerability.Immune
      unknown_weapon2 := TypeVulnerability.Immune
      charged_beams :=
        { power := TypeVulnerability.Normal, ice := TypeVulnerability.Normal
          wave := TypeVulnerability.Normal, plasma := TypeVulnerability.Normal
          phazon := TypeVulnerability.Normal }
      beam_combos :=
        { power := TypeVulnerability.Normal, ice := TypeVulnerability.Normal
          wave := TypeVulnerability.Normal, plasma := TypeVulnerability.Normal
          phazon := TypeVulnerability.Normal } }
  | DoorType.PowerOnly =>
    { power := TypeVulnerability.Normal, ice := TypeVulnerability.Reflect
      wave := TypeVulnerability.Reflect, plasma := TypeVulnerability.Reflect
      bomb := TypeVulnerability.Immune, power_bomb := TypeVulnerability.Immune
      missile := TypeVulnerability.Reflect, boost_ball := TypeVulnerability.Reflect
      phazon := TypeVulnerability.Reflect
      enemy_weapon0 := TypeVulnerability.Immune, enemy_weapon1 := TypeVulnerability.Immune
      enemy_weapon2 := TypeVulnerability.Immune, enemy_weapon3 := TypeVulnerability.Immune
      unknown_weapon0 := TypeVulnerability.Immune, unknown_weapon1 := TypeVulnerability.Immune
      unknown_weapon2 := TypeVulnerability.Immune
      charged_beams :=
        { power := TypeVulnerability.Normal, ice := TypeVulnerability.Reflect
          wave := TypeVulnerability.Reflect, plasma := TypeVulnerability.Reflect
          phazon := TypeVulnerability.Reflect }
      beam_combos :=
        { power := TypeVulnerability.Normal, ice := TypeVulnerability.Reflect
          wave := TypeVulnerability.Reflect, plasma := TypeVulnerability.Reflect
          phazon := TypeVulnerability.Reflect } }
  | DoorType.Purple =>
    { power := TypeVulnerability.Reflect, ice := TypeVulnerability.Reflect
      wave := TypeVulnerability.Normal, plasma := TypeVulnerability.Reflect
      bomb := TypeVulnerability.Immune, power_bomb := TypeVulnerability.Immune
      missile := TypeVulnerability.Reflect, boost_ball := TypeVulnerability.Reflect
      phazon := TypeVulnerability.Immune
      enemy_weapon0 := TypeVulnerability.Immune, enemy_weapon1 := TypeVulnerability.Immune
      enemy_weapon2 := TypeVulnerability.Immune, enemy_weapon3 := TypeVulnerability.Immune
      unknown_weapon0 := TypeVulnerability.Immune, unknown_weapon1 := TypeVulnerability.Immune
      unknown_weapon2 := TypeVulnerability.Immune
      charged_beams :=
        { power := TypeVulnerability.Reflect, ice := TypeVulnerability.Reflect
          wave := TypeVulnerability.Normal, plasma := TypeVulnerability.Reflect
          phazon := TypeVulnerability.Reflect }
      beam_combos :=
        { power := TypeVulnerability.Reflect, ice := TypeVulnerability.Reflect
          wave := TypeVulnerability.Normal, plasma := TypeVulnerability.Reflect
          phazon := TypeVulnerability.Reflect } }
  | DoorType.White =>
    { power := TypeVulnerability.Reflect, ice := TypeVulnerability.Normal
      wave := TypeVulnerability.Reflect, plasma := TypeVulnerability.Reflect
      bomb := TypeVulnerability.Immune, power_bomb := TypeVulnerability.Immune
      missile := TypeVulnerability.Reflect, boost_ball := TypeVulnerability.Reflect
      phazon := TypeVulnerability.Immune
      enemy_weapon0 := TypeVulnerability.Immune, enemy_weapon1 := TypeVulnerability.Immune
      enemy_weapon2 := TypeVulnerability.Immune, enemy_weapon3 := TypeVulnerability.Immune
      unknown_weapon0 := TypeVulnerability.Immune, unknown_weapon1 := TypeVulnerability.Immune
      unknown_weapon2 := TypeVulnerability.Immune
      charged_beams :=
        { power := TypeVulnerability.Reflect, ice := TypeVulnerability.Normal
          wave := TypeVulnerability.Reflect, plasma := TypeVulnerability.Reflect
          phazon := TypeVulnerability.Reflect }
      beam_combos :=
        { power := TypeVulnerability.Reflect, ice := TypeVulnerability.Normal
          wave := TypeVulnerability.Reflect, plasma := TypeVulnerability.Reflect
          phazon := TypeVulnerability.Reflect } }
  | DoorType.Red =>
    { power := TypeVulnerability.Reflect, ice := TypeVulnerability.Reflect
      wave := TypeVulnerability.Reflect, plasma := TypeVulnerability.Normal
      bomb := TypeVulnerability.Immune, power_bomb := TypeVulnerability.Immune
      missile := TypeVulnerability.Reflect, boost_ball := TypeVulnerability.Reflect
      phazon := TypeVulnerability.Immune
      enemy_weapon0 := TypeVulnerability.Immune, enemy_weapon1 := TypeVulnerability.Immune
      enemy_weapon2 := TypeVulnerability.Immune, enemy_weapon3 := TypeVulnerability.Immune
      unknown_weapon0 := TypeVulnerability.Immune, unknown_weapon1 := TypeVulnerability.Immune
      unknown_weapon2 := TypeVulnerability.Immune
      charged_beams :=
        { power := TypeVulnerability.Reflect, ice := TypeVulnerability.Reflect
          wave := TypeVulnerability.Reflect, plasma := TypeVulnerability.Normal
          phazon := TypeVulnerability.Reflect }
      beam_combos :=
        { power := TypeVulnerability.Reflect, ice := TypeVulnerability.Reflect
          wave := TypeVulnerability.Reflect, plasma := TypeVulnerability.Normal
          phazon := TypeVulnerability.Reflect } }
  | DoorType.PowerBomb =>
    { power := TypeVulnerability.Reflect, ice := TypeVulnerability.Reflect
      wave := TypeVulnerability.Reflect, plasma := TypeVulnerability.Reflect
      bomb := TypeVulnerability.Immune, power_bomb := TypeVulnerability.Normal
      missile := TypeVulnerability.Reflect, boost_ball := TypeVulnerability.Reflect
      phazon := TypeVulnerability.Immune
      enemy_weapon0 := TypeVulnerability.Immune, enemy_weapon1 := TypeVulnerability.Immune
      enemy_weapon2 := TypeVulnerability.Immune, enemy_weapon3 := TypeVulnerability.Immune
      unknown_weapon0 := TypeVulnerability.Immune, unknown_weapon1 := TypeVulnerability.Immune
      unknown_weapon2 := TypeVulnerability.Immune
      charged_beams :=
        { power := TypeVulnerability.Reflect, ice := TypeVulnerability.Reflect
          wave := TypeVulnerability.Reflect, plasma := TypeVulnerability.Reflect
          phazon := TypeVulnerability.Reflect }
      beam_combos :=
        { power := TypeVulnerability.Reflect, ice := TypeVulnerability.Reflect
          wave := TypeVulnerability.Reflect, plasma := TypeVulnerability.Reflect
          phazon := TypeVulnerability.Reflect } }
  | DoorType.Bomb =>
    { power := TypeVulnerability.Reflect, ice := TypeVulnerability.Reflect
      wave := TypeVulnerability.Reflect, plasma := TypeVulnerability.Reflect
      bomb := TypeVulnerability.Normal, power_bomb := TypeVulnerability.Immune
      missile := TypeVulnerability.Reflect, boost_ball := TypeVulnerability.Reflect
      phazon := TypeVulnerability.Immune
      enemy_weapon0 := TypeVulnerability.Immune, enemy_weapon1 := TypeVulnerability.Immune
      enemy_weapon2 := TypeVulnerability.Immune, enemy_weapon3 := TypeVulnerability.Immune
      unknown_weapon0 := TypeVulnerability.Immune, unknown_weapon1 := TypeVulnerability.Immune
      unknown_weapon2 := TypeVulnerability.Immune
      charged_beams :=
        { power := TypeVulnerability.Reflect, ice := TypeVulnerability.Reflect
          wave := TypeVulnerability.Reflect, plasma := TypeVulnerability.Reflect
          phazon := TypeVulnerability.Reflect }
      beam_combos :=
        { power := TypeVulnerability.Reflect, ice := TypeVulnerability.Reflect
          wave := TypeVulnerability.Reflect, plasma := TypeVulnerability.Reflect
          phazon := TypeVulnerability.Reflect } }
  | DoorType.Boost =>
    { power := TypeVulnerability.Reflect, ice := TypeVulnerability.Reflect
      wave := TypeVulnerability.Reflect, plasma := TypeVulnerability.Reflect
      bomb := TypeVulnerability.Immune, power_bomb := TypeVulnerability.Immune
      missile := TypeVulnerability.Reflect, boost_ball := TypeVulnerability.Normal
      phazon := TypeVulnerability.Immune
      enemy_weapon0 := TypeVulnerability.Immune, enemy_weapon1 := TypeVulnerability.Immune
      enemy_weapon2 := TypeVulnerability.Immune, enemy_weapon3 := TypeVulnerability.Immune
      unknown_weapon0 := TypeVulnerability.Immune, unknown_weapon1 := TypeVulnerability.Immune
      unknown_weapon2 := TypeVulnerability.Immune
      charged_beams :=
        { power := TypeVulnerability.Reflect, ice := TypeVulnerability.Reflect
          wave := TypeVulnerability.Reflect, plasma := TypeVulnerability.Reflect
          phazon := TypeVulnerability.Reflect }
      beam_combos :=
        { power := TypeVulnerability.Reflect, ice := TypeVulnerability.Reflect
          wave := TypeVulnerability.Reflect, plasma := TypeVulnerability.Reflect
          phazon := TypeVulnerability.Reflect } }
  | DoorType.Missile =>
    { power := TypeVulnerability.Reflect, ice := TypeVulnerability.Reflect
      wave := TypeVulnerability.Reflect, plasma := TypeVulnerability.Reflect
      bomb := TypeVulnerability.Immune, power_bomb := TypeVulnerability.Immune
      missile := TypeVulnerability.Normal, boost_ball := TypeVulnerability.Reflect
      phazon := TypeVulnerability.Immune
      enemy_weapon0 := TypeVulnerability.Immune, enemy_weapon1 := TypeVulnerability.Immune
      enemy_weapon2 := TypeVulnerability.Immune, enemy_weapon3 := TypeVulnerability.Immune
      unknown_weapon0 := TypeVulnerability.Immune, unknown_weapon1 := TypeVulnerability.Immune
      unknown_weapon2 := TypeVulnerability.Immune
      charged_beams :=
        { power := TypeVulnerability.Reflect, ice := TypeVulnerability.Reflect
          wave := TypeVulnerability.Reflect, plasma := TypeVulnerability.Reflect
          phazon := TypeVulnerability.Reflect }
      beam_combos :=
        { power := TypeVulnerability.Reflect, ice := TypeVulnerability.Reflect
          wave := TypeVulnerability.Reflect, plasma := TypeVulnerability.Reflect
          phazon := TypeVulnerability.Reflect } }
  | DoorType.Charge =>
    { power := TypeVulnerability.Reflect, ice := TypeVulnerability.Reflect
      wave := TypeVulnerability.Reflect, plasma := TypeVulnerability.Reflect
      bomb := TypeVulnerability.Immune, power_bomb := TypeVulnerability.Immune
      missile := TypeVulnerability.Reflect, boost_ball := TypeVulnerability.Reflect
      phazon := TypeVulnerability.Immune
      enemy_weapon0 := TypeVulnerability.Immune, enemy_weapon1 := TypeVulnerability.Immune
      enemy_weapon2 := TypeVulnerability.Immune, enemy_weapon3 := TypeVulnerability.Immune
      unknown_weapon0 := TypeVulnerability.Immune, unknown_weapon1 := TypeVulnerability.Immune
      unknown_weapon2 := TypeVulnerability.Immune
      charged_beams :=
        { power := TypeVulnerability.Normal, ice := TypeVulnerability.Normal
          wave := TypeVulnerability.Normal, plasma := TypeVulnerability.Normal
          phazon := TypeVulnerability.Reflect }
      beam_combos :=
        { power := TypeVulnerability.Reflect, ice := TypeVulnerability.Reflect
          wave := TypeVulnerability.Reflect, plasma := TypeVulnerability.Reflect
          phazon := TypeVulnerability.Reflect } }
  | DoorType.Super =>
    { power := TypeVulnerability.Reflect, ice := TypeVulnerability.Reflect
      wave := TypeVulnerability.Reflect, plasma := TypeVulnerability.Reflect
      bomb := TypeVulnerability.Immune, power_bomb := TypeVulnerability.Immune
      missile := TypeVulnerability.Reflect, boost_ball := TypeVulnerability.Reflect
      phazon := TypeVulnerability.Immune
      enemy_weapon0 := TypeVulnerability.Immune, enemy_weapon1 := TypeVulnerability.Immune
      enemy_weapon2 := TypeVulnerability.Immune, enemy_weapon3 := TypeVulnerability.Immune
      unknown_weapon0 := TypeVulnerability.Immune, unknown_weapon1 := TypeVulnerability.Immune
      unknown_weapon2 := TypeVulnerability.Immune
      charged_beams :=
        { power := TypeVulnerability.Reflect, ice := TypeVulnerability.Reflect
          wave := TypeVulnerability.Reflect, plasma := TypeVulnerability.Reflect
          phazon := TypeVulnerability.Reflect }
      beam_combos :=
        { power := TypeVulnerability.Normal, ice := TypeVulnerability.Reflect
          wave := TypeVulnerability.Reflect, plasma := TypeVulnerability.Reflect
          phazon := TypeVulnerability.Reflect } }
  | DoorType.Wavebuster =>
    { power := TypeVulnerability.Reflect, ice := TypeVulnerability.Reflect
      wave := TypeVulnerability.Reflect, plasma := TypeVulnerability.Reflect
      bomb := TypeVulnerability.Immune, power_bomb := TypeVulnerability.Immune
      missile := TypeVulnerability.Reflect, boost_ball := TypeVulnerability.Reflect
      phazon := TypeVulnerability.Immune
      enemy_weapon0 := TypeVulnerability.Immune, enemy_weapon1 := TypeVulnerability.Immune
      enemy_weapon2 := TypeVulnerability.Immune, enemy_weapon3 := TypeVulnerability.Immune
      unknown_weapon0 := TypeVulnerability.Immune, unknown_weapon1 := TypeVulnerability.Immune
      unknown_weapon2 := TypeVulnerability.Immune
      charged_beams :=
        { power := TypeVulnerability.Reflect, ice := TypeVulnerability.Reflect
          wave := TypeVulnerability.Reflect, plasma := TypeVulnerability.Reflect
          phazon := TypeVulnerability.Reflect }
      beam_combos :=
        { power := TypeVulnerability.Reflect, ice := TypeVulnerability.Reflect
          wave := TypeVulnerability.Normal, plasma := TypeVulnerability.Reflect
          phazon := TypeVulnerability.Reflect } }
  | DoorType.Icespreader =>
    { power := TypeVulnerability.Reflect, ice := TypeVulnerability.Reflect
      wave := TypeVulnerability.Reflect, plasma := TypeVulnerability.Reflect
      bomb := TypeVulnerability.Immune, power_bomb := TypeVulnerability.Immune
      missile := TypeVulnerability.Reflect, boost_ball := TypeVulnerability.Reflect
      phazon := TypeVulnerability.Immune
      enemy_weapon0 := TypeVulnerability.Immune, enemy_weapon1 := TypeVulnerability.Immune
      enemy_weapon2 := TypeVulnerability.Immune, enemy_weapon3 := TypeVulnerability.Immune
      unknown_weapon0 := TypeVulnerability.Immune, unknown_weapon1 := TypeVulnerability.Immune
      unknown_weapon2 := TypeVulnerability.Immune
      charged_beams :=
        { power := TypeVulnerability.Reflect, ice := TypeVulnerability.Reflect
          wave := TypeVulnerability.Reflect, plasma := TypeVulnerability.Reflect
          phazon := TypeVulnerability.Reflect }
      beam_combos :=
        { power := TypeVulnerability.Reflect, ice := TypeVulnerability.Normal
          wave := TypeVulnerability.Reflect, plasma := TypeVulnerability.Reflect
          phazon := TypeVulnerability.Reflect } }
  | DoorType.Flamethrower =>
    { power := TypeVulnerability.Reflect, ice := TypeVulnerability.Reflect
      wave := TypeVulnerability.Reflect, plasma := TypeVulnerability.Reflect
      bomb := TypeVulnerability.Immune, power_bomb := TypeVulnerability.Immune
      missile := TypeVulnerability.Reflect, boost_ball := TypeVulnerability.Reflect
      phazon := TypeVulnerability.Immune
      enemy_weapon0 := TypeVulnerability.Immune, enemy_weapon1 := TypeVulnerability.Immune
      enemy_weapon2 := TypeVulnerability.Immune, enemy_weapon3 := TypeVulnerability.Immune
      unknown_weapon0 := TypeVulnerability.Immune, unknown_weapon1 := TypeVulnerability.Immune
      unknown_weapon2 := TypeVulnerability.Immune
      charged_beams :=
        { power := TypeVulnerability.Reflect, ice := TypeVulnerability.Reflect
          wave := TypeVulnerability.Reflect, plasma := TypeVulnerability.Reflect
          phazon := TypeVulnerability.Reflect }
      beam_combos :=
        { power := TypeVulnerability.Reflect, ice := TypeVulnerability.Reflect
          wave := TypeVulnerability.Reflect, plasma := TypeVulnerability.Normal
          phazon := TypeVulnerability.Reflect } }
  | DoorType.Disabled =>
    { power := TypeVulnerability.Immune, ice := TypeVulnerability.Immune
      wave := TypeVulnerability.Immune, plasma := TypeVulnerability.Immune
      bomb := TypeVulnerability.Immune, power_bomb := TypeVulnerability.Immune
      missile := TypeVulnerability.Immune, boost_ball := TypeVulnerability.Immune
      phazon := TypeVulnerability.Normal
      enemy_weapon0 := TypeVulnerability.Immune, enemy_weapon1 := TypeVulnerability.Immune
      enemy_weapon2 := TypeVulnerability.Immune, enemy_weapon3 := TypeVulnerability.Immune
      unknown_weapon0 := TypeVulnerability.Immune, unknown_weapon1 := TypeVulnerability.Immune
      unknown_weapon2 := TypeVulnerability.Immune
      charged_beams :=
        { power := TypeVulnerability.Immune, ice := TypeVulnerability.Immune
          wave := TypeVulnerability.Immune, plasma := TypeVulnerability.Immune
          phazon := TypeVulnerability.Normal }
      beam_combos :=
        { power := TypeVulnerability.Immune, ice := TypeVulnerability.Immune
          wave := TypeVulnerability.Immune, plasma := TypeVulnerability.Immune
          phazon := TypeVulnerability.Normal } }
  | DoorType.Ai =>
    { power := TypeVulnerability.Reflect, ice := TypeVulnerability.Reflect
      wave := TypeVulnerability.Reflect, plasma := TypeVulnerability.Reflect
      bomb := TypeVulnerability.Immune, power_bomb := TypeVulnerability.Immune
      missile := TypeVulnerability.Reflect, boost_ball := TypeVulnerability.Immune
      phazon := TypeVulnerability.Normal
      enemy_weapon0 := TypeVulnerability.Normal, enemy_weapon1 := TypeVulnerability.Normal
      enemy_weapon2 := TypeVulnerability.Normal, enemy_weapon3 := TypeVulnerability.Normal
      unknown_weapon0 := TypeVulnerability.Normal, unknown_weapon1 := TypeVulnerability.Normal
      unknown_weapon2 := TypeVulnerability.Normal
      charged_beams :=
        { power := TypeVulnerability.Reflect, ice := TypeVulnerability.Reflect
          wave := TypeVulnerability.Reflect, plasma := TypeVulnerability.Reflect
          phazon := TypeVulnerability.Normal }
      beam_combos :=
        { power := TypeVulnerability.Reflect, ice := TypeVulnerability.Reflect
          wave := TypeVulnerability.Reflect, plasma := TypeVulnerability.Reflect
          phazon := TypeVulnerability.Normal } }
  | DoorType.VerticalBlue => DoorType.Blue.vulnerability
  | DoorType.VerticalPowerOnly => DoorType.PowerOnly.vulnerability
  | DoorType.VerticalPurple => DoorType.Purple.vulnerability
  | DoorType.VerticalWhite => DoorType.White.vulnerability
  | DoorType.VerticalRed => DoorType.Red.vulnerability
  | DoorType.VerticalPowerBomb => DoorType.PowerBomb.vulnerability
  | DoorType.VerticalBomb => DoorType.Bomb.vulnerability
  | DoorType.VerticalMissile => DoorType.Missile.vulnerability
  | DoorType.VerticalCharge => DoorType.Charge.vulnerability
  | DoorType.VerticalSuper => DoorType.Super.vulnerability
  | DoorType.VerticalDisabled => DoorType.Disabled.vulnerability
  | DoorType.VerticalWavebuster => DoorType.Wavebuster.vulnerability
  | DoorType.VerticalIcespreader => DoorType.Icespreader.vulnerability
  | DoorType.VerticalFlamethrower => DoorType.Flamethrower.vulnerability
  | DoorType.VerticalAi => DoorType.Ai.vulnerability
termination_by d => if d.is_vertical then 1 else 0
decreasing_by all_goals decide

/-- Dependencies to add to the area for a door variant
(`DoorType::dependencies` in src/door_meta.rs). -/
def DoorType.dependencies (d : DoorType) : List (Nat × String) :=
  let data : List (Nat × String) := []
  let data := data ++ [(d.shield_cmdl, "CMDL")]
  let data := data ++ [(d.forcefield_txtr, "TXTR")]
  let data :=
    if d.holorim_texture != 0x00000000 then data ++ [(d.holorim_texture, "TXTR")] else data
  -- If the door is a t-posing chozo ghost, add that models dependencies as well
  let data :=
    if d.shield_cmdl == 0xDAAC77CB then
      data ++ [(0xB516D300, "TXTR"), (0x8D4EF1D8, "TXTR"), (0x7D81B904, "TXTR")]
    else data
  data

def DoorType.iter : List DoorType :=
  [DoorType.Blue, DoorType.PowerOnly, DoorType.Purple, DoorType.White, DoorType.Red,
   DoorType.PowerBomb, DoorType.Bomb, DoorType.Boost, DoorType.Missile, DoorType.Charge,
   DoorType.Super, DoorType.Disabled, DoorType.Wavebuster, DoorType.Icespreader,
   DoorType.Flamethrower, DoorType.Ai, DoorType.VerticalBlue, DoorType.VerticalPowerOnly,
   DoorType.VerticalPurple, DoorType.VerticalWhite, DoorType.VerticalRed,
   DoorType.VerticalPowerBomb, DoorType.VerticalBomb, DoorType.VerticalMissile,
   DoorType.VerticalCharge, DoorType.VerticalSuper, DoorType.VerticalDisabled,
   DoorType.VerticalWavebuster, DoorType.VerticalIcespreader,
   DoorType.VerticalFlamethrower, DoorType.VerticalAi]

/-- Leading and trailing whitespace removal, as Rust's `str::trim`.
(Restricted to ASCII whitespace via `Char.isWhitespace`; Rust trims by
Unicode whitespace, but the two agree on every string that can reach a
synonym-table entry, all of which are ASCII.) -/
def trim_chars (cs : List Char) : List Char :=
  ((cs.dropWhile Char.isWhitespace).reverse.dropWhile Char.isWhitespace).reverse

/-- Normalization applied by `DoorType::from_string` and
`BlastShieldType::from_str`: trim whitespace, lowercase, drop the spaces
and underscores (`replace` by the empty string deletes every occurrence).
(Lean's `Char.toLower` lowercases ASCII only, while Rust's `to_lowercase`
is Unicode-aware; again the two agree wherever a synonym can match.) -/
def normalize_variant_name (s : String) : String :=
  String.mk
    (((trim_chars s.data).map Char.toLower).filter (fun c => !(c == ' ' || c == '_')))

def DoorType.from_string (s : String) : Option DoorType :=
  match normalize_variant_name s with
  | "blue" => some DoorType.Blue
  | "poweronly" => some DoorType.PowerOnly
  | "purple" => some DoorType.Purple
  | "wave" => some DoorType.Purple
  | "wavebeam" => some DoorType.Purple
  | "white" => some DoorType.White
  | "ice" => some DoorType.White
  | "icebeam" => some DoorType.White
  | "red" => some DoorType.Red
  | "plasma" => some DoorType.Red
  | "plasmabeam" => some DoorType.Red
  | "powerbomb" => some DoorType.PowerBomb
  | "bomb" => some DoorType.Bomb
  | "bombs" => some DoorType.Bomb
  | "missile" => some DoorType.Missile
  | "missiles" => some DoorType.Missile
  | "charge" => some DoorType.Charge
  | "chargebeam" => some DoorType.Charge
  | "super" => some DoorType.Super
  | "supermissile" => some DoorType.Super
  | "supermissiles" => some DoorType.Super
  | "disabled" => some DoorType.Disabled
  | "wavebuster" => some DoorType.Wavebuster
  | "icespreader" => some DoorType.Icespreader
  | "flamethrower" => some DoorType.Flamethrower
  | "ai" => some DoorType.Ai
  | _ => none

/-- The synonym table of `DoorType::from_string`: exactly the strings its
match accepts. -/
def door_synonyms : List String :=
  ["blue", "poweronly", "purple", "wave", "wavebeam", "white", "ice", "icebeam",
   "red", "plasma", "plasmabeam", "powerbomb", "bomb", "bombs", "missile",
   "missiles", "charge", "chargebeam", "super", "supermissile", "supermissiles",
   "disabled", "wavebuster", "icespreader", "flamethrower", "ai"]

def BlastShieldType.from_str (s : String) : Option BlastShieldType :=
  match normalize_variant_name s with
  | "missile" => some BlastShieldType.Missile
  | "missiles" => some BlastShieldType.Missile
  | "powerbomb" => some BlastShieldType.PowerBomb
  | "powerbombs" => some BlastShieldType.PowerBomb
  | "super" => some BlastShieldType.Super
  | "supermissile" => some BlastShieldType.Super
  | "supermissiles" => some BlastShieldType.Super
  | "wavebuster" => some BlastShieldType.Wavebuster
  | "icespreader" => some BlastShieldType.Icespreader
  | "flamethrower" => some BlastShieldType.Flamethrower
  | _ => none

def BlastShieldType.cmdl : BlastShieldType → Nat
  | BlastShieldType.PowerBomb => custom_asset_ids.POWER_BOMB_BLAST_SHIELD_CMDL
  | BlastShieldType.Super => custom_asset_ids.SUPER_BLAST_SHIELD_CMDL
  | BlastShieldType.Wavebuster => custom_asset_ids.WAVEBUSTER_BLAST_SHIELD_CMDL
  | BlastShieldType.Icespreader => custom_asset_ids.ICESPREADER_BLAST_SHIELD_CMDL
  | BlastShieldType.Flamethrower => custom_asset_ids.FLAMETHROWER_BLAST_SHIELD_CMDL
  | _ => 0xEFDFFB8C

def BlastShieldType.metal_body_txtr : BlastShieldType → Nat
  | BlastShieldType.PowerBomb => custom_asset_ids.POWER_BOMB_BLAST_SHIELD_TXTR
  | BlastShieldType.Super => custom_asset_ids.SUPER_BLAST_SHIELD_TXTR
  | BlastShieldType.Wavebuster => custom_asset_ids.WAVEBUSTER_BLAST_SHIELD_TXTR
  | BlastShieldType.Icespreader => custom_asset_ids.ICESPREADER_BLAST_SHIELD_TXTR
  | BlastShieldType.Flamethrower => custom_asset_ids.FLAMETHROWER_BLAST_SHIELD_TXTR
  | _ => 0x6E09EA6B

def BlastShieldType.glow_border_txtr : BlastShieldType → Nat
  | BlastShieldType.PowerBomb => custom_asset_ids.BLAST_SHIELD_ALT_TXTR0
  | BlastShieldType.Super => custom_asset_ids.BLAST_SHIELD_ALT_TXTR0
  | BlastShieldType.Wavebuster => custom_asset_ids.BLAST_SHIELD_ALT_TXTR0
  | BlastShieldType.Icespreader => custom_asset_ids.BLAST_SHIELD_ALT_TXTR0
  | BlastShieldType.Flamethrower => custom_asset_ids.BLAST_SHIELD_ALT_TXTR0
  | _ => 0x5B97098E

def BlastShieldType.glow_trim_txtr : BlastShieldType → Nat
  | BlastShieldType.PowerBomb => custom_asset_ids.BLAST_SHIELD_ALT_TXTR1
  | BlastShieldType.Super => custom_asset_ids.BLAST_SHIELD_ALT_TXTR1
  | BlastShieldType.Wavebuster => custom_asset_ids.BLAST_SHIELD_ALT_TXTR1
  | BlastShieldType.Icespreader => custom_asset_ids.BLAST_SHIELD_ALT_TXTR1
  | BlastShieldType.Flamethrower => custom_asset_ids.BLAST_SHIELD_ALT_TXTR1
  | _ => 0x5C7B215C

def BlastShieldType.animated_glow_txtr : BlastShieldType → Nat
  | BlastShieldType.PowerBomb => custom_asset_ids.BLAST_SHIELD_ALT_TXTR2
  | BlastShieldType.Super => custom_asset_ids.BLAST_SHIELD_ALT_TXTR2
  | BlastShieldType.Wavebuster => custom_asset_ids.BLAST_SHIELD_ALT_TXTR2
  | BlastShieldType.Icespreader => custom_asset_ids.BLAST_SHIELD_ALT_TXTR2
  | BlastShieldType.Flamethrower => custom_asset_ids.BLAST_SHIELD_ALT_TXTR2
  | _ => 0xFA0C2AE8

def BlastShieldType.metal_trim_txtr : BlastShieldType → Nat
  | _ => 0xFDE0023A

def BlastShieldType.scan : BlastShieldType → Nat
  | BlastShieldType.PowerBomb => custom_asset_ids.POWER_BOMB_BLAST_SHIELD_SCAN
  | BlastShieldType.Super => custom_asset_ids.SUPER_BLAST_SHIELD_SCAN
  | BlastShieldType.Wavebuster => custom_asset_ids.WAVEBUSTER_BLAST_SHIELD_SCAN
  | BlastShieldType.Icespreader => custom_asset_ids.ICESPREADER_BLAST_SHIELD_SCAN
  | BlastShieldType.Flamethrower => custom_asset_ids.FLAMETHROWER_BLAST_SHIELD_SCAN
  | _ => ResId.invalid

def BlastShieldType.strg : BlastShieldType → Nat
  | BlastShieldType.PowerBomb => custom_asset_ids.POWER_BOMB_BLAST_SHIELD_STRG
  | BlastShieldType.Super => custom_asset_ids.SUPER_BLAST_SHIELD_STRG
  | BlastShieldType.Wavebuster => custom_asset_ids.WAVEBUSTER_BLAST_SHIELD_STRG
  | BlastShieldType.Icespreader => custom_asset_ids.ICESPREADER_BLAST_SHIELD_STRG
  | BlastShieldType.Flamethrower => custom_asset_ids.FLAMETHROWER_BLAST_SHIELD_STRG
  | _ => ResId.invalid

/-- Dependencies to add to the area for a blast shield
(`BlastShieldType::dependencies` in src/door_meta.rs); the `retain` call
drops zero and 0xFFFFFFFF identifiers. -/
def BlastShieldType.dependencies (b : BlastShieldType) : List (Nat × String) :=
  let data : List (Nat × String) :=
    [(b.cmdl, "CMDL"), (b.metal_body_txtr, "TXTR"), (b.glow_border_txtr, "TXTR"),
     (b.glow_trim_txtr, "TXTR"), (b.animated_glow_txtr, "TXTR"),
     (b.metal_trim_txtr, "TXTR"), (b.scan, "SCAN"), (b.strg, "STRG")]
  data.filter (fun i => i.1 != 0xffffffff && i.1 != 0)

def BlastShieldType.vulnerability : BlastShieldType → DamageVulnerability
  | BlastShieldType.Missile => DoorType.Missile.vulnerability
  | BlastShieldType.PowerBomb => DoorType.PowerBomb.vulnerability
  | BlastShieldType.Super => DoorType.Super.vulnerability
  | BlastShieldType.Wavebuster => DoorType.Wavebuster.vulnerability
  | BlastShieldType.Icespreader => DoorType.Icespreader.vulnerability
  | BlastShieldType.Flamethrower => DoorType.Flamethrower.vulnerability

/-- C1: every vertical door variant mirrors its base variant exactly — the
damage-vulnerability profile (all fields, including `charged_beams` and
`beam_combos`) and the forcefield texture of `v.to_vertical` equal those
of `v`, for every door variant `v` (the fifteen mirrored pairs
VerticalBlue..VerticalAi arise as instances; `to_vertical` fixes the
remaining variants, for which the equalities are trivial). -/
theorem DoorType.vertical_mirrors_base (v : DoorType) :
    (v.to_vertical).vulnerability = v.vulnerability ∧
    (v.to_vertical).forcefield_txtr = v.forcefield_txtr := by
  cases v <;>
    exact ⟨by simp [DoorType.vulnerability, DoorType.to_vertical],
           by simp [DoorType.forcefield_txtr, DoorType.to_vertical]⟩

/-- C2 counterexample: `DoorType::dependencies` of the Disabled door lists
the texture 0x717AABCE twice (it is both the forcefield and the holorim
texture of that variant, and nothing de-duplicates the door list), so the
claimed absence of duplicate `(id, type_tag)` pairs fails. -/
theorem DoorType.disabled_dependencies_duplicate :
    ¬ (DoorType.dependencies DoorType.Disabled).Nodup := by
  simp [DoorType.dependencies, DoorType.shield_cmdl, DoorType.forcefield_txtr,
    DoorType.holorim_texture, custom_asset_ids.DISABLED_DOOR_CMDL]

/-- Door-variant side of the dependency-list contract (helper). -/
lemma door_dependencies_part (v : DoorType) :
    v.dependencies ≠ [] ∧
    (v.shield_cmdl, "CMDL") ∈ v.dependencies ∧
    (∀ e ∈ v.dependencies, e.1 ≠ 0 ∧ e.1 ≠ 0xFFFFFFFF) ∧
    (v ≠ DoorType.Disabled → v ≠ DoorType.VerticalDisabled → v.dependencies.Nodup) := by
  cases v <;>
    simp only [DoorType.dependencies, DoorType.shield_cmdl, DoorType.forcefield_txtr,
      DoorType.holorim_texture] <;> decide

/-- Blast-shield side of the dependency-list contract (helper). -/
lemma blast_shield_dependencies_part (b : BlastShieldType) :
    b.dependencies ≠ [] ∧
    (b.cmdl, "CMDL") ∈ b.dependencies ∧
    (∀ e ∈ b.dependencies, e.1 ≠ 0 ∧ e.1 ≠ 0xFFFFFFFF) ∧
    b.dependencies.Nodup := by
  cases b <;> decide

/-- C2 (amended): for every door variant the dependency list is non-empty,
contains the pair `(shield_cmdl, CMDL)`, and contains no zero or
0xFFFFFFFF identifier; it is duplicate-free for every variant except
Disabled and VerticalDisabled, whose texture entry repeats (the door list
is not de-duplicated; only the blast-shield list filters, and it happens
to be duplicate-free).  `BlastShieldType::dependencies` satisfies the full
contract. -/
theorem catalog_dependencies_contract (v : DoorType) (b : BlastShieldType) :
    v.dependencies ≠ [] ∧
    (v.shield_cmdl, "CMDL") ∈ v.dependencies ∧
    (∀ e ∈ v.dependencies, e.1 ≠ 0 ∧ e.1 ≠ 0xFFFFFFFF) ∧
    (v ≠ DoorType.Disabled → v ≠ DoorType.VerticalDisabled → v.dependencies.Nodup) ∧
    b.dependencies ≠ [] ∧
    (b.cmdl, "CMDL") ∈ b.dependencies ∧
    (∀ e ∈ b.dependencies, e.1 ≠ 0 ∧ e.1 ≠ 0xFFFFFFFF) ∧
    b.dependencies.Nodup := by
  obtain ⟨h1, h2, h3, h4⟩ := door_dependencies_part v
  obtain ⟨g1, g2, g3, g4⟩ := blast_shield_dependencies_part b
  exact ⟨h1, h2, h3, h4, g1, g2, g3, g4⟩

/-- Witness for the C2 theorem at the Blue door and the Missile blast
shield, with the conditional duplicate-freedom hypotheses discharged. -/
theorem catalog_dependencies_contract_witness :
    DoorType.Blue.dependencies ≠ [] ∧ DoorType.Blue.dependencies.Nodup ∧
    BlastShieldType.Missile.dependencies.Nodup :=
  ⟨(catalog_dependencies_contract DoorType.Blue BlastShieldType.Missile).1,
   (catalog_dependencies_contract DoorType.Blue BlastShieldType.Missile).2.2.2.1
     (by decide) (by decide),
   (catalog_dependencies_contract DoorType.Blue BlastShieldType.Missile).2.2.2.2.2.2.2⟩

/-- C6: `DoorType::from_string` normalizes its input (trim, lowercase,
drop spaces and underscores) and matches the result against the fixed
synonym table: "plasma", "plasmabeam" and "red" map to Red, "wave" and
"wavebeam" map to the same variant as "purple", normalization makes the
lookup case/space/underscore-insensitive, "bogus" maps to none, and every
string whose normal form is outside the table maps to none (the function
is total, so no input can make it panic). -/
theorem DoorType.from_string_synonym_table :
    DoorType.from_string "plasma" = some DoorType.Red ∧
    DoorType.from_string "plasmabeam" = some DoorType.Red ∧
    DoorType.from_string "red" = some DoorType.Red ∧
    DoorType.from_string "wave" = DoorType.from_string "purple" ∧
    DoorType.from_string "wavebeam" = DoorType.from_string "purple" ∧
    DoorType.from_string " Plasma_Beam " = some DoorType.Red ∧
    DoorType.from_string "bogus" = none ∧
    (∀ s : String, normalize_variant_name s ∉ door_synonyms →
      DoorType.from_string s = none) := by
  refine ⟨by decide, by decide, by decide, by decide, by decide, by decide, by decide, ?_⟩
  intro s h
  unfold DoorType.from_string
  split <;> simp_all [door_synonyms]

/-- Witness for the C6 theorem: the quantified no-match clause applied at
the concrete string "bogus". -/
theorem DoorType.from_string_synonym_table_witness :
    normalize_variant_name "bogus" ∉ door_synonyms ∧
    DoorType.from_string "bogus" = none :=
  ⟨by decide, DoorType.from_string_synonym_table.2.2.2.2.2.2.2 "bogus" (by decide)⟩

/-! Door-color weighted selection and door patching, from src/patches.rs. -/

/-- A per-region weight table entry (`[u8; 4]` in the source); each field
is a `u8` value, i.e. below 256. -/
structure Weight4 where
  w0 : Nat
  w1 : Nat
  w2 : Nat
  w3 : Nat
deriving DecidableEq, Repr

/-- Modelled from the spec: the `Weights` struct is declared in the part
of door_meta.rs not under src/; its five per-region `[u8; 4]` fields are
reconstructed from their uses in `calculate_door_type`
(src/patches.rs). -/
structure Weights where
  chozo_ruins : Weight4
  phendrana_drifts : Weight4
  tallon_overworld : Weight4
  phazon_mines : Weight4
  magmoor_caverns : Weight4
deriving DecidableEq, Repr

/-- The pak-name match at the top of `calculate_door_type`. -/
def region_weights (pak_name : String) (weights : Weights) : Weight4 :=
  match pak_name with
  | "Metroid2.pak" => weights.chozo_ruins
  | "Metroid3.pak" => weights.phendrana_drifts
  | "Metroid4.pak" => weights.tallon_overworld
  | "metroid5.pak" => weights.phazon_mines
  | "Metroid6.pak" => weights.magmoor_caverns
  | "Metroid7.pak" => ⟨0, 0, 0, 100⟩
  | _ => ⟨100, 0, 0, 0⟩

/-- The five pak names that draw their weights from the config's region
table. -/
def region_pak_names : List String :=
  ["Metroid2.pak", "Metroid3.pak", "Metroid4.pak", "metroid5.pak", "Metroid6.pak"]

/-- `calculate_door_type` (src/patches.rs).  `num` is the value sampled
from `Uniform::from(0..100)`, so it lies in 0..=99.  The weights are `u8`,
so each `+` wraps modulo 256 (release-mode Rust); both panics are modelled
as errors. -/
def calculate_door_type (pak_name : String) (num : Nat) (weights : Weights) :
    Except String DoorType :=
  let w := region_weights pak_name weights
  if (w.w0 + w.w1 + w.w2 + w.w3) % 256 != 100 then
    Except.error "The sum of all weights for each area must equal exactly 100."
  else if num < w.w0 then Except.ok DoorType.Blue
  else if num < (w.w1 + w.w0) % 256 then Except.ok DoorType.Purple
  else if num < (w.w2 + w.w1 + w.w0) % 256 then Except.ok DoorType.White
  else if num < (w.w3 + w.w2 + w.w1 + w.w0) % 256 then Except.ok DoorType.Red
  else Except.error "RNG outside the range 0-99."

/-- The per-door-location override chain of `build_and_run_patches`
(src/patches.rs): the randomly drawn type is replaced according to
`door_specification`, then clobbered to VerticalBlue when the door is
vertical and `patch_vertical_to_blue` is set. -/
def select_door_type (door_specification : String) (is_vertical_door : Bool)
    (patch_vertical_to_blue : Bool) (random_door_type : DoorType) : DoorType :=
  let d := random_door_type
  let d := if door_specification == "blue" then
    (if !is_vertical_door then DoorType.Blue else DoorType.VerticalBlue) else d
  let d := if door_specification == "purple" then
    (if !is_vertical_door then DoorType.Purple else DoorType.VerticalPurple) else d
  let d := if door_specification == "white" then
    (if !is_vertical_door then DoorType.White else DoorType.VerticalWhite) else d
  let d := if door_specification == "red" then
    (if !is_vertical_door then DoorType.Red else DoorType.VerticalRed) else d
  let d := if door_specification == "power_bomb" then
    (if !is_vertical_door then DoorType.PowerBomb else DoorType.VerticalPowerBomb) else d
  let d := if door_specification == "bomb" then
    (if !is_vertical_door then DoorType.Bomb else DoorType.VerticalBomb) else d
  let d := if door_specification == "missile" then
    (if !is_vertical_door then DoorType.Missile else DoorType.VerticalMissile) else d
  let d := if door_specification == "charge" then
    (if !is_vertical_door then DoorType.Charge else DoorType.VerticalCharge) else d
  let d := if door_specification == "super" then
    (if !is_vertical_door then DoorType.Super else DoorType.VerticalSuper) else d
  let d := if door_specification == "wavebuster" then
    (if !is_vertical_door then DoorType.Wavebuster else DoorType.VerticalWavebuster) else d
  let d := if door_specification == "icespreader" then
    (if !is_vertical_door then DoorType.Icespreader else DoorType.VerticalIcespreader) else d
  let d := if door_specification == "flamethrower" then
    (if !is_vertical_door then DoorType.Flamethrower else DoorType.VerticalFlamethrower) else d
  let d := if door_specification == "disabled" then
    (if !is_vertical_door then DoorType.Disabled else DoorType.VerticalDisabled) else d
  let d := if door_specification == "ai" then
    (if !is_vertical_door then DoorType.Ai else DoorType.VerticalAi) else d
  let d := if is_vertical_door && patch_vertical_to_blue then DoorType.VerticalBlue else d
  d

/-! The per-area script-object graph, as far as `patch_door` touches it.
Property payloads other than damageable triggers and actors are opaque. -/

structure ScriptObjectLocation where
  layer : Nat
  instance_id : Nat
deriving DecidableEq, Repr

/-- Modelled from the spec: the `DoorLocation` struct is declared in the
part of door_meta.rs not under src/; its fields are reconstructed from
their uses in src/patches.rs (`door_location`, `door_force_location`,
optional `door_shield_location`, optional `dock_number`). -/
structure DoorLocation where
  door_location : ScriptObjectLocation
  door_force_location : ScriptObjectLocation
  door_shield_location : Option ScriptObjectLocation
  dock_number : Option Nat
deriving DecidableEq, Repr

structure DamageableTrigger where
  color_txtr : Nat
  damage_vulnerability : DamageVulnerability
deriving DecidableEq, Repr

structure Actor where
  cmdl : Nat
deriving DecidableEq, Repr

inductive SclyProperty where
  | damageableTrigger (dt : DamageableTrigger)
  | actor (a : Actor)
  | other
deriving DecidableEq, Repr

structure SclyObject where
  instance_id : Nat
  property_data : SclyProperty
deriving DecidableEq, Repr

structure SclyLayer where
  objects : List SclyObject
deriving DecidableEq, Repr

/-- A playable area: its script layers, plus the layer-0 dependency index
that `area.add_dependencies` extends. -/
structure Area where
  layers : List SclyLayer
  layer0_deps : List (Nat × String)
deriving DecidableEq, Repr

def as_damageable_trigger : SclyProperty → Option DamageableTrigger
  | SclyProperty.damageableTrigger dt => some dt
  | _ => none

def as_actor : SclyProperty → Option Actor
  | SclyProperty.actor a => some a
  | _ => none

/-- In-place mutation of the first list element satisfying `p`, the shape
of `objects.iter_mut().find(..)` followed by field assignments. -/
def modify_first (p : α → Bool) (f : α → α) : List α → List α
  | [] => []
  | x :: xs => if p x then f x :: xs else x :: modify_first p f xs

/-- The damageable-trigger mutation of `patch_door`: set `color_txtr` and
`damage_vulnerability`, then override `power_bomb` when the lockpick
option is on. -/
def set_door_force (door_type : DoorType) (lockpick : Bool) (obj : SclyObject) : SclyObject :=
  match obj.property_data with
  | SclyProperty.damageableTrigger dt =>
    let dt := { dt with color_txtr := door_type.forcefield_txtr
                        damage_vulnerability := door_type.vulnerability }
    let dt := if lockpick then
        { dt with damage_vulnerability := { dt.damage_vulnerability with power_bomb := 0x1 } }
      else dt
    { obj with property_data := SclyProperty.damageableTrigger dt }
  | _ => obj

/-- The actor mutation of `patch_door`: set the shield model. -/
def set_door_shield (door_type : DoorType) (obj : SclyObject) : SclyObject :=
  match obj.property_data with
  | SclyProperty.actor a =>
    { obj with property_data := SclyProperty.actor { a with cmdl := door_type.shield_cmdl } }
  | _ => obj

/-- `patch_door` (src/patches.rs): register the variant's dependencies on
layer 0, rewrite the door's damageable trigger, and, when the location has
a shield actor, rewrite its model.  The source's `unwrap`s on failed
lookups are modelled as errors. -/
def patch_door (area : Area) (door_loc : DoorLocation) (door_type : DoorType)
    (lockpick : Bool) : Except String Area :=
  -- area.add_dependencies(&door_resources, 0, deps_iter)
  let new_deps : List (Nat × String) := area.layer0_deps ++ door_type.dependencies
  match area.layers with
  | [] => Except.error "area has no layer 0"
  | layer :: rest =>
    match (layer.objects.find?
        (fun o => o.instance_id == door_loc.door_force_location.instance_id)).bind
        (fun o => as_damageable_trigger o.property_data) with
    | none => Except.error "door force lookup failed"
    | some _ =>
      match door_loc.door_shield_location with
      | none =>
        Except.ok
          { layers :=
              SclyLayer.mk (modify_first
                (fun o => o.instance_id == door_loc.door_force_location.instance_id)
                (set_door_force door_type lockpick) layer.objects) :: rest
            layer0_deps := new_deps }
      | some sl =>
        match ((modify_first
            (fun o => o.instance_id == door_loc.door_force_location.instance_id)
            (set_door_force door_type lockpick) layer.objects).find?
            (fun o => o.instance_id == sl.instance_id)).bind
            (fun o => as_actor o.property_data) with
        | none => Except.error "door shield lookup failed"
        | some _ =>
          Except.ok
            { layers :=
                SclyLayer.mk (modify_first (fun o => o.instance_id == sl.instance_id)
                  (set_door_shield door_type)
                  (modify_first
                    (fun o => o.instance_id == door_loc.door_force_location.instance_id)
                    (set_door_force door_type lockpick) layer.objects)) :: rest
              layer0_deps := new_deps }

/-- The damageable trigger with the given instance id on layer 0 of an
area. -/
def area_door_force (a : Area) (iid : Nat) : Option DamageableTrigger :=
  match a.layers with
  | [] => none
  | layer :: _ =>
    (layer.objects.find? (fun o => o.instance_id == iid)).bind
      (fun o => as_damageable_trigger o.property_data)

lemma find?_modify_first_self (p : α → Bool) (f : α → α) (l : List α)
    (hf : ∀ a, p (f a) = p a) :
    (modify_first p f l).find? p = (l.find? p).map f := by
  induction l with
  | nil => simp [modify_first]
  | cons x xs ih =>
    by_cases hp : p x
    · simp [modify_first, hp, List.find?_cons_of_pos, hf]
    · simp [modify_first, hp, List.find?_cons_of_neg, ih]

lemma find?_modify_first_disjoint (p q : α → Bool) (f : α → α) (l : List α)
    (hf : ∀ a, p (f a) = p a) (hpq : ∀ a, p a = true → q a = false) :
    (modify_first q f l).find? p = l.find? p := by
  induction l with
  | nil => simp [modify_first]
  | cons x xs ih =>
    by_cases hq : q x
    · have hpx : p x = false := by
        by_contra hc
        have := hpq x (by revert hc; cases h : p x <;> simp)
        simp_all
      have hpfx : p (f x) = false := by rw [hf]; exact hpx
      simp [modify_first, hq, List.find?_cons_of_neg, hpx, hpfx]
    · by_cases hp : p x
      · simp [modify_first, hq, List.find?_cons_of_pos, hp]
      · simp [modify_first, hq, List.find?_cons_of_neg, hp, ih]

lemma set_door_force_id (dt : DoorType) (lp : Bool) (o : SclyObject) :
    (set_door_force dt lp o).instance_id = o.instance_id := by
  cases o with
  | mk iid pd => cases pd <;> simp [set_door_force]

lemma set_door_force_on_trigger (dt : DoorType) (lp : Bool) (o : SclyObject)
    (tr : DamageableTrigger)
    (h : o.property_data = SclyProperty.damageableTrigger tr) :
    set_door_force dt lp o =
      SclyObject.mk o.instance_id (SclyProperty.damageableTrigger
        (DamageableTrigger.mk dt.forcefield_txtr
          (if lp then { dt.vulnerability with power_bomb := 0x1 }
           else dt.vulnerability))) := by
  cases o with
  | mk iid pd =>
    simp only at h
    subst h
    cases lp <;> simp [set_door_force]

lemma set_door_shield_id (dt : DoorType) (o : SclyObject) :
    (set_door_shield dt o).instance_id = o.instance_id := by
  cases o with
  | mk iid pd => cases pd <;> simp [set_door_shield]

lemma patch_door_force_spec (area : Area) (loc : DoorLocation) (dt : DoorType)
    (lockpick : Bool) (a' : Area)
    (h : patch_door area loc dt lockpick = Except.ok a') :
    area_door_force a' loc.door_force_location.instance_id =
      some { color_txtr := dt.forcefield_txtr
             damage_vulnerability :=
               if lockpick then { dt.vulnerability with power_bomb := 0x1 }
               else dt.vulnerability } := by
  have hf : ∀ o : SclyObject,
      ((set_door_force dt lockpick o).instance_id ==
        loc.door_force_location.instance_id) =
      (o.instance_id == loc.door_force_location.instance_id) := by
    intro o; rw [set_door_force_id]
  unfold patch_door at h
  split at h
  · simp at h
  · rename_i layer rest heq
    split at h
    · simp at h
    · rename_i obj1 hfind
      obtain ⟨obj0, hfind0, hcast⟩ := Option.bind_eq_some.mp hfind
      have hobj : obj0.property_data = SclyProperty.damageableTrigger obj1 := by
        cases hpd : obj0.property_data <;> rw [hpd] at hcast <;>
          simp [as_damageable_trigger] at hcast
        rw [hcast]
      split at h
      · rename_i hsl
        simp only [Except.ok.injEq] at h
        subst h
        simp only [area_door_force]
        rw [find?_modify_first_self _ _ _ hf, hfind0]
        simp [set_door_force_on_trigger dt lockpick obj0 obj1 hobj, as_damageable_trigger]
      · rename_i sl hsl
        split at h
        · simp at h
        · rename_i act hfind2
          by_cases hid : sl.instance_id = loc.door_force_location.instance_id
          · exfalso
            have heqp : (fun o : SclyObject => o.instance_id == sl.instance_id) =
                (fun o : SclyObject =>
                  o.instance_id == loc.door_force_location.instance_id) := by
              funext o; rw [hid]
            rw [heqp, find?_modify_first_self _ _ _ hf, hfind0] at hfind2
            simp [set_door_force_on_trigger dt lockpick obj0 obj1 hobj, as_actor] at hfind2
          · simp only [Except.ok.injEq] at h
            subst h
            simp only [area_door_force]
            have hg : ∀ o : SclyObject,
                ((set_door_shield dt o).instance_id ==
                  loc.door_force_location.instance_id) =
                (o.instance_id == loc.door_force_location.instance_id) := by
              intro o; rw [set_door_shield_id]
            have hpq : ∀ o : SclyObject,
                (o.instance_id == loc.door_force_location.instance_id) = true →
                (o.instance_id == sl.instance_id) = false := by
              intro o ho
              simp only [beq_iff_eq] at ho
              simp only [beq_eq_false_iff_ne, ho]
              omega
            rw [find?_modify_first_disjoint _ _ _ _ hg hpq]
            rw [find?_modify_first_self _ _ _ hf, hfind0]
            simp [set_door_force_on_trigger dt lockpick obj0 obj1 hobj, as_damageable_trigger]

/-- An all-zero vulnerability record, the initial payload of the test
fixtures below (the patch overwrites every field it cares about). -/
def zero_vulnerability : DamageVulnerability :=
  ⟨0, 0, 0, 0, 0, 0, 0, 0, 0, 0, 0, 0, 0, 0, 0, 0, ⟨0, 0, 0, 0, 0⟩, ⟨0, 0, 0, 0, 0⟩⟩

/-- A one-layer area holding a single door damageable trigger with
instance id 1234. -/
def sample_trigger_area : Area :=
  { layers := [SclyLayer.mk [SclyObject.mk 1234
      (SclyProperty.damageableTrigger (DamageableTrigger.mk 0 zero_vulnerability))]]
    layer0_deps := [] }

/-- The door location of the fixture: force trigger 1234, no shield
actor. -/
def sample_door_loc : DoorLocation :=
  { door_location := ⟨0, 1234⟩
    door_force_location := ⟨0, 1234⟩
    door_shield_location := none
    dock_number := some 0 }

/-- The fixture area after a Missile door patch. -/
def sample_missile_patched_area : Area :=
  { layers := [SclyLayer.mk [SclyObject.mk 1234
      (SclyProperty.damageableTrigger
        (DamageableTrigger.mk DoorType.Missile.forcefield_txtr
          DoorType.Missile.vulnerability))]]
    layer0_deps := DoorType.Missile.dependencies }

/-- C4: evidence that `calculate_door_type` does not reject every weight
table whose entries fail to sum to 100.  The four weights are `u8` and
their sum wraps modulo 256 (release-mode Rust), so the table
[200, 156, 0, 0] — real sum 356 — wraps to 100, passes the check the
panic message states ("must equal exactly 100"), and selection succeeds
with Blue. -/
theorem calculate_door_type_u8_overflow :
    (200 : Nat) + 156 + 0 + 0 ≠ 100 ∧
    calculate_door_type "Metroid2.pak" 0
      { chozo_ruins := ⟨200, 156, 0, 0⟩
        phendrana_drifts := ⟨100, 0, 0, 0⟩
        tallon_overworld := ⟨100, 0, 0, 0⟩
        phazon_mines := ⟨100, 0, 0, 0⟩
        magmoor_caverns := ⟨100, 0, 0, 0⟩ } = Except.ok DoorType.Blue :=
  ⟨by decide, by rfl⟩

/-- C5: with a region weight table of {100, 0, 0, 0}, `calculate_door_type`
returns Blue for every uniform sample in 0..100 (probability 1; the
embedding takes the sampled value explicitly, so selection is a function
of the seed's samples and hence deterministic), and a door patched with
Blue carries Blue's forcefield texture in its damageable trigger's
`color_txtr`. -/
theorem blue_weights_select_blue
    (pak : String) (w : Weights) (num : Nat) (area : Area) (loc : DoorLocation) (a' : Area)
    (hw : region_weights pak w = ⟨100, 0, 0, 0⟩)
    (hnum : num < 100)
    (hp : patch_door area loc DoorType.Blue false = Except.ok a') :
    calculate_door_type pak num w = Except.ok DoorType.Blue ∧
    (area_door_force a' loc.door_force_location.instance_id).map
      (fun t => t.color_txtr) = some DoorType.Blue.forcefield_txtr := by
  constructor
  · unfold calculate_door_type
    rw [hw]
    simp [hnum]
  · rw [patch_door_force_spec area loc DoorType.Blue false a' hp]
    simp

/-- The fixture area after a Blue door patch. -/
def sample_blue_patched_area : Area :=
  { layers := [SclyLayer.mk [SclyObject.mk 1234
      (SclyProperty.damageableTrigger
        (DamageableTrigger.mk DoorType.Blue.forcefield_txtr DoorType.Blue.vulnerability))]]
    layer0_deps := DoorType.Blue.dependencies }

/-- The fixture area after a VerticalBlue door patch. -/
def sample_vertical_blue_patched_area : Area :=
  { layers := [SclyLayer.mk [SclyObject.mk 1234
      (SclyProperty.damageableTrigger
        (DamageableTrigger.mk DoorType.VerticalBlue.forcefield_txtr
          DoorType.VerticalBlue.vulnerability))]]
    layer0_deps := DoorType.VerticalBlue.dependencies }

/-- A weight table giving {100, 0, 0, 0} to every region. -/
def uniform_blue_weights : Weights :=
  { chozo_ruins := ⟨100, 0, 0, 0⟩
    phendrana_drifts := ⟨100, 0, 0, 0⟩
    tallon_overworld := ⟨100, 0, 0, 0⟩
    phazon_mines := ⟨100, 0, 0, 0⟩
    magmoor_caverns := ⟨100, 0, 0, 0⟩ }

/-- Witness for the C5 theorem: region Chozo Ruins ("Metroid2.pak"),
weights {100, 0, 0, 0}, sample 0, and the one-trigger fixture area. -/
theorem blue_weights_select_blue_witness :
    region_weights "Metroid2.pak" uniform_blue_weights = ⟨100, 0, 0, 0⟩ ∧
    (0 : Nat) < 100 ∧
    calculate_door_type "Metroid2.pak" 0 uniform_blue_weights = Except.ok DoorType.Blue ∧
    (area_door_force sample_blue_patched_area
        sample_door_loc.door_force_location.instance_id).map
      (fun t => t.color_txtr) = some DoorType.Blue.forcefield_txtr := by
  have hp : patch_door sample_trigger_area sample_door_loc DoorType.Blue false =
      Except.ok sample_blue_patched_area := by
    simp [patch_door, sample_trigger_area, sample_door_loc, sample_blue_patched_area,
      as_damageable_trigger, modify_first, set_door_force, zero_vulnerability,
      List.find?, DoorType.forcefield_txtr, DoorType.vulnerability,
      DoorType.dependencies, DoorType.shield_cmdl, DoorType.holorim_texture]
  refine ⟨by decide, by decide, ?_, ?_⟩
  · exact (blue_weights_select_blue "Metroid2.pak" uniform_blue_weights 0
      sample_trigger_area sample_door_loc sample_blue_patched_area
      (by decide) (by decide) hp).1
  · exact (blue_weights_select_blue "Metroid2.pak" uniform_blue_weights 0
      sample_trigger_area sample_door_loc sample_blue_patched_area
      (by decide) (by decide) hp).2

/-- C3 counterexample: at a vertical door location with
`patch_vertical_to_blue` enabled, the explicit "missile" override is
clobbered to VerticalBlue by the last step of the selection chain, so the
patched door's vulnerability is Blue's profile, not Missile's — even with
the lockpick option off and independently of the weight table (the random
draw is overridden either way). -/
theorem missile_override_clobbered :
    select_door_type "missile" true true DoorType.Blue = DoorType.VerticalBlue ∧
    patch_door sample_trigger_area sample_door_loc
      (select_door_type "missile" true true DoorType.Blue) false =
      Except.ok sample_vertical_blue_patched_area ∧
    (area_door_force sample_vertical_blue_patched_area 1234).map
      (fun t => t.damage_vulnerability) = some DoorType.VerticalBlue.vulnerability ∧
    DoorType.VerticalBlue.vulnerability ≠ DoorType.Missile.vulnerability := by
  refine ⟨by decide, ?_, ?_, ?_⟩
  · simp [patch_door, sample_trigger_area, sample_door_loc,
      sample_vertical_blue_patched_area, as_damageable_trigger, modify_first,
      set_door_force, zero_vulnerability, List.find?, select_door_type,
      DoorType.forcefield_txtr, DoorType.vulnerability, DoorType.dependencies,
      DoorType.shield_cmdl, DoorType.holorim_texture]
  · simp [sample_vertical_blue_patched_area, area_door_force, List.find?,
      as_damageable_trigger]
  · simp [DoorType.vulnerability, TypeVulnerability.Normal, TypeVulnerability.Reflect]

/-- C3 (amended): a "missile" per-location override yields a patched door
whose damageable-trigger vulnerability is exactly the catalog's Missile
profile, for every random draw (the override replaces it), provided the
power-bomb lockpick option is off and the override is not clobbered by
`patch_vertical_to_blue` (i.e. the door is not vertical, or that option is
off).  For vertical doors this goes through VerticalMissile, whose profile
equals Missile's. -/
theorem missile_override_vulnerability
    (area : Area) (loc : DoorLocation) (vert pvtb : Bool) (rand : DoorType) (a' : Area)
    (hv : ¬ (vert = true ∧ pvtb = true))
    (hp : patch_door area loc (select_door_type "missile" vert pvtb rand) false =
      Except.ok a') :
    (area_door_force a' loc.door_force_location.instance_id).map
      (fun t => t.damage_vulnerability) = some DoorType.Missile.vulnerability := by
  cases vert with
  | false =>
    have hsel : select_door_type "missile" false pvtb rand = DoorType.Missile := by
      simp [select_door_type]
    rw [hsel] at hp
    rw [patch_door_force_spec _ _ _ _ _ hp]
    simp
  | true =>
    have hpv : pvtb = false := by
      cases pvtb
      · rfl
      · exact absurd ⟨rfl, rfl⟩ hv
    subst hpv
    have hsel : select_door_type "missile" true false rand = DoorType.VerticalMissile := by
      simp [select_door_type]
    rw [hsel] at hp
    rw [patch_door_force_spec _ _ _ _ _ hp]
    simp [DoorType.vulnerability]

/-- Witness for the C3 theorem: a non-vertical door of the fixture area,
`patch_vertical_to_blue` off, random draw Blue, override "missile". -/
theorem missile_override_vulnerability_witness :
    ¬ ((false = true) ∧ (false = true)) ∧
    (area_door_force sample_missile_patched_area
        sample_door_loc.door_force_location.instance_id).map
      (fun t => t.damage_vulnerability) = some DoorType.Missile.vulnerability :=
  ⟨by decide,
   missile_override_vulnerability sample_trigger_area sample_door_loc false false
     DoorType.Blue sample_missile_patched_area (by decide) (by
       simp [patch_door, sample_trigger_area, sample_door_loc,
         sample_missile_patched_area, as_damageable_trigger, modify_first,
         set_door_force, zero_vulnerability, List.find?, select_door_type,
         DoorType.forcefield_txtr, DoorType.vulnerability, DoorType.dependencies,
         DoorType.shield_cmdl, DoorType.holorim_texture])⟩

/-- All instance ids of an area, across all layers. -/
def Area.instance_ids (a : Area) : List Nat :=
  (a.layers.map (fun l => l.objects.map (fun o => o.instance_id))).flatten

/-- The maximum instance id observed in the area (0 when empty). -/
def max_instance_id (a : Area) : Nat := a.instance_ids.foldr max 0

/-- Modelled from the spec: `PatcherState` and its
`fresh_instance_id_range` live in patcher.rs, which is not under src/
(src/patches.rs only consumes `ps.fresh_instance_id_range.next()`).  Per
the spec the allocator is a monotonic counter threaded through the run,
seeded above the maximum instance id observed in the area. -/
structure PatcherState where
  fresh_next : Nat
deriving DecidableEq, Repr

/-- `fresh_instance_id_range.next()`: yield the counter, then advance. -/
def PatcherState.next (ps : PatcherState) : Nat × PatcherState :=
  (ps.fresh_next, PatcherState.mk (ps.fresh_next + 1))

/-- Seeding of the allocator above every instance id of the area. -/
def seed_patcher_state (a : Area) : PatcherState :=
  PatcherState.mk (max_instance_id a + 1)

/-- `n` consecutive allocations from the fresh-instance-id allocator. -/
def alloc_fresh_ids : PatcherState → Nat → List Nat × PatcherState
  | ps, 0 => ([], ps)
  | ps, n + 1 =>
    let (id, ps') := ps.next
    let (ids, ps'') := alloc_fresh_ids ps' n
    (id :: ids, ps'')

lemma alloc_fresh_ids_eq_range' (ps : PatcherState) (n : Nat) :
    alloc_fresh_ids ps n = (List.range' ps.fresh_next n, PatcherState.mk (ps.fresh_next + n)) := by
  induction n generalizing ps with
  | zero => simp [alloc_fresh_ids, List.range']
  | succ m ih =>
    simp [alloc_fresh_ids, PatcherState.next, ih, List.range']
    omega

lemma mem_le_foldr_max (l : List Nat) (i : Nat) (h : i ∈ l) : i ≤ l.foldr max 0 := by
  induction l with
  | nil => cases h
  | cons x xs ih =>
    rcases List.mem_cons.mp h with h1 | h2
    · subst h1; exact Nat.le_max_left _ _
    · exact Nat.le_trans (ih h2) (Nat.le_max_right _ _)

/-- C9: within one run, every id produced by the fresh-instance-id
allocator (seeded above the area's maximum instance id) is distinct from
every instance id already present in any layer of the area, and from
every other allocation, for arbitrarily many allocations. -/
theorem fresh_instance_ids_never_collide (a : Area) (n : Nat) :
    (∀ i ∈ (alloc_fresh_ids (seed_patcher_state a) n).1, i ∉ a.instance_ids) ∧
    (alloc_fresh_ids (seed_patcher_state a) n).1.Nodup := by
  have hr : (alloc_fresh_ids (seed_patcher_state a) n).1 =
      List.range' (max_instance_id a + 1) n := by
    rw [alloc_fresh_ids_eq_range']
    rfl
  constructor
  · intro i hi hmem
    rw [hr] at hi
    have h1 := (List.mem_range'_1.mp hi).1
    have h2 : i ≤ max_instance_id a := mem_le_foldr_max _ _ hmem
    omega
  · rw [hr]
    exact List.nodup_range' _ _

/-- Witness for the C9 theorem: three allocations over the fixture area
(whose only instance id is 1234); the first allocation 1235 is fresh. -/
theorem fresh_instance_ids_never_collide_witness :
    1235 ∈ (alloc_fresh_ids (seed_patcher_state sample_trigger_area) 3).1 ∧
    1235 ∉ sample_trigger_area.instance_ids ∧
    (alloc_fresh_ids (seed_patcher_state sample_trigger_area) 3).1.Nodup :=
  ⟨by decide,
   (fresh_instance_ids_never_collide sample_trigger_area 3).1 1235 (by decide),
   (fresh_instance_ids_never_collide sample_trigger_area 3).2⟩

/-! The resource-cache builder (`collect_pickup_resources` and
`collect_door_resources`, src/patches.rs).  Resource payloads are opaque
for the closure argument, so the pool is tracked by its `(id, fourcc)`
keys; `looking_for` is the outstanding set (a `HashSet` in the source,
hence the initial dedup), `found` the pool under construction. -/

/-- One step of the pak scan / synthetic-asset pass: a resource whose key
is still outstanding moves into the pool
(`if looking_for.remove(&key) { found.insert(..) }`). -/
def collect_step (st : List (Nat × String) × List (Nat × String)) (key : Nat × String) :
    List (Nat × String) × List (Nat × String) :=
  if key ∈ st.1 then (st.1.erase key, st.2 ++ [key]) else st

/-- One step of the extra-assets pass: bundled external assets always
enter the pool and leave the outstanding set
(`looking_for.remove(&key); found.insert(..)`). -/
def extra_asset_step (st : List (Nat × String) × List (Nat × String)) (key : Nat × String) :
    List (Nat × String) × List (Nat × String) :=
  (st.1.erase key, st.2 ++ [key])

/-- The shared shape of `collect_pickup_resources` and
`collect_door_resources`: start from the dedup'd union of declared
dependencies, subtract and pool the bundled extra assets, scan every pak
once, run synthetic generation, then assert the outstanding set is empty
(the source's `assert!(looking_for.is_empty())`, modelled as an error). -/
def collect_phases (declared extras : List (Nat × String))
    (paks : List (List (Nat × String))) (generated : List (Nat × String)) :
    List (Nat × String) × List (Nat × String) :=
  generated.foldl collect_step
    (paks.flatten.foldl collect_step
      (extras.foldl extra_asset_step (declared.dedup, ([] : List (Nat × String)))))

def collect_resources (declared extras : List (Nat × String))
    (paks : List (List (Nat × String))) (generated : List (Nat × String)) :
    Except String (List (Nat × String)) :=
  let st := collect_phases declared extras paks generated
  if st.1.isEmpty then Except.ok st.2
  else Except.error "still looking for unresolved dependencies"

/-- `build_and_run_patches` builds the resource pools before registering
or running any patch: a collection failure aborts before the patch phase
is consulted. -/
def build_pipeline (declared extras : List (Nat × String))
    (paks : List (List (Nat × String))) (generated : List (Nat × String))
    (patch_phase : List (Nat × String) → Except String Unit) : Except String Unit :=
  match collect_resources declared extras paks generated with
  | Except.error e => Except.error e
  | Except.ok pool => patch_phase pool

lemma collect_step_fst (st : List (Nat × String) × List (Nat × String))
    (key : Nat × String) : (collect_step st key).1 = st.1.erase key := by
  unfold collect_step
  split
  · rfl
  · rename_i h
    rw [List.erase_of_not_mem h]

lemma foldl_collect_fst (l : List (Nat × String))
    (st : List (Nat × String) × List (Nat × String)) :
    (l.foldl collect_step st).1 = l.foldl (fun lf k => lf.erase k) st.1 := by
  induction l generalizing st with
  | nil => rfl
  | cons x xs ih => rw [List.foldl_cons, List.foldl_cons, ih, collect_step_fst]

lemma foldl_extra_fst (l : List (Nat × String))
    (st : List (Nat × String) × List (Nat × String)) :
    (l.foldl extra_asset_step st).1 = l.foldl (fun lf k => lf.erase k) st.1 := by
  induction l generalizing st with
  | nil => rfl
  | cons x xs ih => rw [List.foldl_cons, List.foldl_cons, ih]; rfl

lemma foldl_erase_subset (l : List (Nat × String)) (lf : List (Nat × String))
    (k : Nat × String) (h : k ∈ l.foldl (fun lf k => lf.erase k) lf) : k ∈ lf := by
  induction l generalizing lf with
  | nil => exact h
  | cons x xs ih => exact List.mem_of_mem_erase (ih _ h)

lemma foldl_erase_nodup (l : List (Nat × String)) (lf : List (Nat × String))
    (h : lf.Nodup) : (l.foldl (fun lf k => lf.erase k) lf).Nodup := by
  induction l generalizing lf with
  | nil => exact h
  | cons x xs ih => exact ih _ (h.erase x)

lemma foldl_erase_not_mem_of_not_mem (l : List (Nat × String)) (lf : List (Nat × String))
    (k : Nat × String) (h : k ∉ lf) : k ∉ l.foldl (fun lf k => lf.erase k) lf := by
  induction l generalizing lf with
  | nil => exact h
  | cons x xs ih =>
    exact ih _ (fun hc => h (List.mem_of_mem_erase hc))

lemma foldl_erase_removes (l : List (Nat × String)) (lf : List (Nat × String))
    (k : Nat × String) (hn : lf.Nodup) (h : k ∈ l) :
    k ∉ l.foldl (fun lf k => lf.erase k) lf := by
  induction l generalizing lf with
  | nil => cases h
  | cons x xs ih =>
    simp only [List.foldl_cons]
    rcases List.mem_cons.mp h with h1 | h2
    · subst h1
      exact foldl_erase_not_mem_of_not_mem _ _ _ hn.not_mem_erase
    · exact ih _ (hn.erase x) h2

lemma foldl_erase_keeps (l : List (Nat × String)) (lf : List (Nat × String))
    (k : Nat × String) (hnl : k ∉ l) (h : k ∈ lf) :
    k ∈ l.foldl (fun lf k => lf.erase k) lf := by
  induction l generalizing lf with
  | nil => exact h
  | cons x xs ih =>
    have hxk : k ≠ x := fun hc => hnl (hc ▸ List.mem_cons_self x xs)
    exact ih _ (fun hc => hnl (List.mem_cons_of_mem _ hc))
      ((List.mem_erase_of_ne hxk).mpr h)

lemma foldl_collect_tracked (l : List (Nat × String))
    (st : List (Nat × String) × List (Nat × String)) (k : Nat × String)
    (h : k ∈ st.1 ∨ k ∈ st.2) :
    k ∈ (l.foldl collect_step st).1 ∨ k ∈ (l.foldl collect_step st).2 := by
  induction l generalizing st with
  | nil => exact h
  | cons x xs ih =>
    refine ih _ ?_
    unfold collect_step
    split
    · rcases h with h1 | h2
      · by_cases hkx : k = x
        · right; simp [hkx]
        · left; exact (List.mem_erase_of_ne hkx).mpr h1
      · right; simp [h2]
    · exact h

lemma foldl_extra_tracked (l : List (Nat × String))
    (st : List (Nat × String) × List (Nat × String)) (k : Nat × String)
    (h : k ∈ st.1 ∨ k ∈ st.2) :
    k ∈ (l.foldl extra_asset_step st).1 ∨ k ∈ (l.foldl extra_asset_step st).2 := by
  induction l generalizing st with
  | nil => exact h
  | cons x xs ih =>
    refine ih _ ?_
    unfold extra_asset_step
    rcases h with h1 | h2
    · by_cases hkx : k = x
      · right; simp [hkx]
      · left; exact (List.mem_erase_of_ne hkx).mpr h1
    · right; simp [h2]

lemma foldl_collect_snd_persist (l : List (Nat × String))
    (st : List (Nat × String) × List (Nat × String)) (k : Nat × String)
    (h : k ∈ st.2) : k ∈ (l.foldl collect_step st).2 := by
  induction l generalizing st with
  | nil => exact h
  | cons x xs ih =>
    refine ih _ ?_
    unfold collect_step
    split
    · simp [h]
    · exact h

lemma collect_phases_fst (declared extras : List (Nat × String))
    (paks : List (List (Nat × String))) (generated : List (Nat × String)) :
    (collect_phases declared extras paks generated).1 =
      generated.foldl (fun lf k => lf.erase k)
        (paks.flatten.foldl (fun lf k => lf.erase k)
          (extras.foldl (fun lf k => lf.erase k) declared.dedup)) := by
  unfold collect_phases
  rw [foldl_collect_fst, foldl_collect_fst, foldl_extra_fst]

/-- C7: the dependency pool is closed or the build fails fast.  If every
declared dependency key is available from the bundled extra assets, some
scanned pak, or synthetic generation, then `collect_resources` succeeds
with a pool containing every declared key (the outstanding set ends
empty); any collection error propagates out of the pipeline unchanged,
for every patch phase — i.e. before any patch callback can run; and if
some declared key is satisfied by none of the three sources, collection is
an error. -/
theorem dependency_pool_closure (declared extras : List (Nat × String))
    (paks : List (List (Nat × String))) (generated : List (Nat × String)) :
    ((∀ k ∈ declared, k ∈ extras ∨ k ∈ paks.flatten ∨ k ∈ generated) →
      ∃ pool, collect_resources declared extras paks generated = Except.ok pool ∧
        ∀ k ∈ declared, k ∈ pool) ∧
    (∀ e, collect_resources declared extras paks generated = Except.error e →
      ∀ patch_phase, build_pipeline declared extras paks generated patch_phase =
        Except.error e) ∧
    ((∃ k ∈ declared, k ∉ extras ∧ k ∉ paks.flatten ∧ k ∉ generated) →
      ∃ e, collect_resources declared extras paks generated = Except.error e) := by
  have hnod0 : declared.dedup.Nodup := List.nodup_dedup declared
  have hnod1 : (extras.foldl (fun lf k => lf.erase k) declared.dedup).Nodup :=
    foldl_erase_nodup _ _ hnod0
  have hnod2 : (paks.flatten.foldl (fun lf k => lf.erase k)
      (extras.foldl (fun lf k => lf.erase k) declared.dedup)).Nodup :=
    foldl_erase_nodup _ _ hnod1
  refine ⟨?_, ?_, ?_⟩
  · intro hcov
    have hempty : (collect_phases declared extras paks generated).1 = [] := by
      refine List.eq_nil_iff_forall_not_mem.mpr ?_
      intro k hk
      rw [collect_phases_fst] at hk
      have hk2 := foldl_erase_subset _ _ _ hk
      have hk1 := foldl_erase_subset _ _ _ hk2
      have hk0 := foldl_erase_subset _ _ _ hk1
      have hkd : k ∈ declared := (List.mem_dedup).mp hk0
      rcases hcov k hkd with he | hp | hg
      · exact foldl_erase_removes _ _ _ hnod0 he hk1
      · exact foldl_erase_removes _ _ _ hnod1 hp hk2
      · exact foldl_erase_removes _ _ _ hnod2 hg hk
    refine ⟨(collect_phases declared extras paks generated).2, ?_, ?_⟩
    · unfold collect_resources
      rw [if_pos (by rw [hempty]; rfl)]
    · intro k hkd
      have htr : k ∈ (collect_phases declared extras paks generated).1 ∨
          k ∈ (collect_phases declared extras paks generated).2 := by
        unfold collect_phases
        refine foldl_collect_tracked _ _ _ ?_
        refine foldl_collect_tracked _ _ _ ?_
        refine foldl_extra_tracked _ _ _ ?_
        left
        exact (List.mem_dedup).mpr hkd
      rcases htr with h1 | h2
      · rw [hempty] at h1; cases h1
      · exact h2
  · intro e he patch_phase
    unfold build_pipeline
    rw [he]
  · rintro ⟨k, hkd, hne, hnp, hng⟩
    have hk1 : k ∈ extras.foldl (fun lf k => lf.erase k) declared.dedup :=
      foldl_erase_keeps _ _ _ hne ((List.mem_dedup).mpr hkd)
    have hk2 := foldl_erase_keeps _ _ _ hnp hk1
    have hk3 := foldl_erase_keeps _ _ _ hng hk2
    refine ⟨"still looking for unresolved dependencies", ?_⟩
    unfold collect_resources
    rw [if_neg]
    intro hc
    have : (collect_phases declared extras paks generated).1 = [] :=
      List.isEmpty_iff.mp hc
    rw [collect_phases_fst] at this
    rw [this] at hk3
    cases hk3

/-- Witness for the C7 theorem: a two-key declared set fully covered by
one extra asset and one pak resource succeeds with a closed pool; an
uncovered key makes collection fail, and the failure propagates out of
the pipeline for a concrete patch phase (which is never consulted). -/
theorem dependency_pool_closure_witness :
    (∃ pool, collect_resources [(1, "CMDL"), (2, "TXTR")] [(2, "TXTR")]
        [[(1, "CMDL")]] [] = Except.ok pool ∧
      ∀ k ∈ [((1 : Nat), "CMDL"), ((2 : Nat), "TXTR")], k ∈ pool) ∧
    (∃ e, collect_resources [(3, "SCAN")] [] [[]] [] = Except.error e) ∧
    build_pipeline [(3, "SCAN")] [] [[]] [] (fun _ => Except.ok ()) =
      Except.error "still looking for unresolved dependencies" :=
  ⟨(dependency_pool_closure [(1, "CMDL"), (2, "TXTR")] [(2, "TXTR")]
      [[(1, "CMDL")]] []).1 (by decide),
   (dependency_pool_closure [(3, "SCAN")] [] [[]] []).2.2 (by decide),
   (dependency_pool_closure [(3, "SCAN")] [] [[]] []).2.1 _ (by rfl)
     (fun _ => Except.ok ())⟩

/-! The synthetic asset generator (`create_custom_door_cmdl`,
src/patches.rs).  The CMDL codec lives in the external `structs` /
`reader_writer` crates, so a parsed CMDL keeps its first material set's
texture-id list plus an opaque remainder, and serialization is an
arbitrary function parameter; the source's behaviour — clone, replace the
first texture reference, re-serialize, pad — is what is embedded. -/

structure MaterialSet where
  texture_ids : List Nat
deriving DecidableEq, Repr

structure Cmdl where
  material_sets : List MaterialSet
  rest : List Nat
deriving DecidableEq, Repr

/-- Modelled from the spec: `reader_writer::pad_bytes(32, len)` comes from
the external reader_writer crate; the spec fixes its contract as padding
the byte length up to the next 32-byte boundary. -/
def pad_bytes_count (multiple len : Nat) : Nat :=
  (multiple - len % multiple) % multiple

/-- `create_custom_door_cmdl` (src/patches.rs): read the horizontal or
vertical blue-door CMDL from the pool, replace the first texture id of the
first material set by the variant's holorim texture, re-serialize, pad to
a 32-byte boundary, and emit the bytes under the variant's shield CMDL
id.  Missing pool entries and malformed CMDLs (`unwrap`s/indexing in the
source) are errors. -/
def create_custom_door_cmdl (serialize : Cmdl → List Nat)
    (resources : (Nat × String) → Option Cmdl) (door_type : DoorType) :
    Except String (Nat × List Nat) :=
  -- 0x18D0AEE6: vanilla vertical CMDL; 0x0734977A: "blueShield_v1"
  match resources
      (if door_type.is_vertical then (0x18D0AEE6, "CMDL") else (0x0734977A, "CMDL")) with
  | none => Except.error "source door CMDL missing from the resource pool"
  | some cmdl =>
    match cmdl.material_sets with
    | [] => Except.error "CMDL has no material set"
    | ms :: other_sets =>
      match ms.texture_ids with
      | [] => Except.error "material set has no texture ids"
      | _ :: other_txtrs =>
        let new_cmdl := Cmdl.mk
          (MaterialSet.mk (door_type.holorim_texture :: other_txtrs) :: other_sets)
          cmdl.rest
        let bytes := serialize new_cmdl
        let padded := bytes ++ List.replicate (pad_bytes_count 32 bytes.length) 0
        Except.ok (door_type.shield_cmdl, padded)

/-- C8: synthetic asset generation is deterministic — two calls with the
same serializer, resource pool and door type produce identical output
resources (the embedding shows the source computes a pure function of
those inputs) — and every successfully generated resource has a byte
length that is a multiple of 32 (the serialized CMDL is padded up to the
next 32-byte boundary). -/
theorem create_custom_door_cmdl_deterministic_padded
    (serialize : Cmdl → List Nat) (resources resources2 : (Nat × String) → Option Cmdl)
    (door_type : DoorType) :
    (resources = resources2 →
      create_custom_door_cmdl serialize resources door_type =
        create_custom_door_cmdl serialize resources2 door_type) ∧
    (∀ id bytes, create_custom_door_cmdl serialize resources door_type =
        Except.ok (id, bytes) → bytes.length % 32 = 0) := by
  constructor
  · intro h
    rw [h]
  · intro id bytes h
    unfold create_custom_door_cmdl at h
    repeat' split at h
    all_goals cases h
    all_goals rw [List.length_append, List.length_replicate]
    all_goals unfold pad_bytes_count
    all_goals omega

/-- A one-material-set CMDL fixture for the witness. -/
def sample_cmdl : Cmdl := Cmdl.mk [MaterialSet.mk [0xAAAAAAAA]] []

/-- A concrete serializer for the witness: the texture ids followed by the
opaque remainder. -/
def sample_serialize : Cmdl → List Nat :=
  fun c => (c.material_sets.map (fun m => m.texture_ids)).flatten ++ c.rest

/-- A pool holding only the horizontal blue-door CMDL. -/
def sample_resources : (Nat × String) → Option Cmdl :=
  fun k => if k = (0x0734977A, "CMDL") then some sample_cmdl else none

/-- Witness for the C8 theorem: generating the Blue door CMDL from the
fixture pool succeeds, is reproducible, and its single serialized texture
id is padded out to 32 bytes. -/
theorem create_custom_door_cmdl_deterministic_padded_witness :
    create_custom_door_cmdl sample_serialize sample_resources DoorType.Blue =
      create_custom_door_cmdl sample_serialize sample_resources DoorType.Blue ∧
    create_custom_door_cmdl sample_serialize sample_resources DoorType.Blue =
      Except.ok (0x0734977A, 0x88ED4593 :: List.replicate 31 0) ∧
    (0x88ED4593 :: List.replicate 31 0).length % 32 = 0 := by
  have heval : create_custom_door_cmdl sample_serialize sample_resources DoorType.Blue =
      Except.ok (0x0734977A, 0x88ED4593 :: List.replicate 31 0) := by
    simp [create_custom_door_cmdl, sample_serialize, sample_resources, sample_cmdl,
      DoorType.is_vertical, DoorType.shield_cmdl, DoorType.holorim_texture,
      pad_bytes_count]
  exact ⟨(create_custom_door_cmdl_deterministic_padded sample_serialize sample_resources
      sample_resources DoorType.Blue).1 rfl,
    heval,
    (create_custom_door_cmdl_deterministic_padded sample_serialize sample_resources
      sample_resources DoorType.Blue).2 0x0734977A
      (0x88ED4593 :: List.replicate 31 0) heval⟩

/-! The layout-string parser (`parse_layout` and
`parse_layout_chars_to_ints`, src/lib.rs).  Strings are handled as their
byte lists (the parser first insists on ASCII); the `BigUint` arithmetic
is over `Nat`.  The Sha512-derived seed is produced by an external crate
and is not part of the model. -/

/-- The fixed 64-character layout alphabet (`LAYOUT_CHAR_TABLE`), byte
values.  The source's quirky letter order (UWV, uwv) is kept verbatim. -/
def LAYOUT_CHAR_TABLE : List Nat :=
  ("ABCDEFGHIJKLMNOPQRSTUWVXYZabcdefghijklmnopqrstuwvxyz0123456789-_").data.map Char.toNat

/-- The base-64 accumulation over the reversed byte string; an input byte
outside the alphabet is an error. -/
def layout_char_sum (acc : Nat) : List Nat → Except String Nat
  | [] => Except.ok acc
  | c :: rest =>
    match LAYOUT_CHAR_TABLE.findIdx? (fun i => i == c) with
    | none => Except.error "Layout contains invalid character."
    | some idx => layout_char_sum (acc * 64 + idx) rest

/-- Binary digits of `n`, least significant first, driven by a fuel
argument so the definition stays structural; `fuel = n` always suffices
(a number has at most `n` binary digits). -/
def nat_to_bits_core : Nat → Nat → List Nat
  | 0, _ => []
  | _ + 1, 0 => []
  | fuel + 1, n + 1 => ((n + 1) % 2) :: nat_to_bits_core fuel ((n + 1) / 2)

/-- `BigUint::to_str_radix(2)` as a digit list: most significant bit
first, no leading zeros, and "0" for zero. -/
def nat_to_bits (n : Nat) : List Nat :=
  if n = 0 then [0] else (nat_to_bits_core n n).reverse

/-- `bits.swap(i, j)` (out-of-range indices cannot occur in the loop
below: `List.set` past the end is the identity, like the source's panic
is unreachable). -/
def swap_idx (l : List Nat) (i j : Nat) : List Nat :=
  (l.set i (l.getD j 0)).set j (l.getD i 0)

/-- The "reverse the order of the odd bits" loop of
`parse_layout_chars_to_ints`. -/
def odd_bit_swap (bits : List Nat) : List Nat :=
  (List.range (bits.length / 4)).foldl
    (fun bs i =>
      let len := bs.length - bs.length % 2
      swap_idx bs (i * 2 + 1) (len - i * 2 - 1)) bits

/-- `BigUint::parse_bytes(bits, 2)`. -/
def bits_to_nat (bits : List Nat) : Nat :=
  bits.foldl (fun acc b => acc * 2 + b) 0

/-- The decoded sum of a layout byte string: base-64 value of the
reversed string, with the odd-bit permutation applied. -/
def layout_decoded_sum (bytes : List Nat) : Except String Nat :=
  match layout_char_sum 0 bytes.reverse with
  | Except.error e => Except.error e
  | Except.ok s => Except.ok (bits_to_nat (odd_bit_swap (nat_to_bits s)))

/-- The embedded checksum: the upper `checksum_size` bits above
`layout_data_size`. -/
def layout_checksum (layout_data_size checksum_size sum1 : Nat) : Nat :=
  (sum1 &&& (((1 <<< checksum_size) - 1) <<< layout_data_size)) >>> layout_data_size

/-- The checksum recomputation loop: fold the data in
`checksum_size`-bit chunks, modulo the bitmask.  Fuel-driven like
`nat_to_bits_core`; `fuel = sum` suffices whenever `checksum_size ≥ 1`
(the source loops forever when `checksum_size = 0`, which no caller
does). -/
def checksum_fold : Nat → Nat → Nat → Nat → Nat → Nat
  | 0, _, _, acc, _ => acc
  | _ + 1, _, _, acc, 0 => acc
  | fuel + 1, c, mask, acc, sum + 1 =>
    checksum_fold fuel c mask ((acc + ((sum + 1) &&& mask)) &&& mask) ((sum + 1) >>> c)

/-- The recomputed checksum over the data bits. -/
def layout_computed_checksum (layout_data_size checksum_size sum1 : Nat) : Nat :=
  let mask := (1 <<< checksum_size) - 1
  let sum2 := sum1 - (sum1 &&& (mask <<< layout_data_size))
  checksum_fold sum2 checksum_size mask 0 sum2

/-- `parse_layout_chars_to_ints` (src/lib.rs): decode, verify the
checksum, then peel off mixed-radix digits per `is`; the trailing
`assert!(sum == 0)` is modelled as an error. -/
def parse_layout_chars_to_ints (bytes : List Nat)
    (layout_data_size checksum_size : Nat) (is : List Nat) :
    Except String (List Nat) :=
  match layout_decoded_sum bytes with
  | Except.error e => Except.error e
  | Except.ok sum1 =>
    if layout_checksum layout_data_size checksum_size sum1 ≠
        layout_computed_checksum layout_data_size checksum_size sum1 then
      Except.error "Layout checksum failed."
    else
      let sum2 := sum1 - (sum1 &&& (((1 <<< checksum_size) - 1) <<< layout_data_size))
      let st := is.foldl (fun (st : List Nat × Nat) denum =>
        (st.1 ++ [st.2 % denum], st.2 / denum)) ([], sum2)
      if st.2 ≠ 0 then Except.error "assertion failed: sum == 0"
      else Except.ok st.1.reverse

/-- The default elevator section used when the layout has no dot. -/
def DEFAULT_ELEVATOR_BYTES : List Nat :=
  ("qzoCAr2fwehJmRjM").data.map Char.toNat

/-- Splitting the layout at the first dot (byte 46): the part before is
the elevator section (defaulted when there is no dot), the part after the
pickup section. -/
def layout_sections (bytes : List Nat) : List Nat × List Nat :=
  match bytes.findIdx? (fun c => c == 46) with
  | some n => (bytes.take n, bytes.drop (n + 1))
  | none => (DEFAULT_ELEVATOR_BYTES, bytes)

/-- Stripping the optional leading bang (byte 33) that marks a
scan-visor layout. -/
def pickup_section (pb : List Nat) : List Nat :=
  if pb.head? = some 33 then pb.drop 1 else pb

/-- `parse_layout` (src/lib.rs), up to the Sha512 seed (external): ASCII
check, sectioning, length checks, then the two
`parse_layout_chars_to_ints` calls with their fixed parameters. -/
def parse_layout (text : String) : Except String (List Nat × List Nat) :=
  if ¬ (∀ c ∈ text.data, c.toNat < 128) then
    Except.error "Layout string contains non-ascii characters."
  else
    let bytes := text.data.map Char.toNat
    let elevator_bytes := (layout_sections bytes).1
    if elevator_bytes.length ≠ 16 then
      Except.error "The section of the layout string before the dot should be 16 characters"
    else
      let has_scan_visor := ((layout_sections bytes).2.head? = some 33 : Bool)
      let pickup_bytes := pickup_section (layout_sections bytes).2
      if pickup_bytes.length ≠ 87 then
        Except.error "Layout string should be exactly 87 characters"
      else
        match parse_layout_chars_to_ints pickup_bytes
            (if has_scan_visor then 521 else 517)
            (if has_scan_visor then 1 else 5)
            (List.replicate 100 (if has_scan_visor then 37 else 36)) with
        | Except.error err => Except.error ("Parsing pickup layout: " ++ err)
        | Except.ok pickup_layout =>
          match parse_layout_chars_to_ints elevator_bytes 91 5
              (21 :: List.replicate 20 20) with
          | Except.error err => Except.error ("Parsing elevator layout: " ++ err)
          | Except.ok elevator_layout => Except.ok (pickup_layout, elevator_layout)


lemma layout_char_sum_error (acc : Nat) (l : List Nat)
    (h : ∃ c ∈ l, c ∉ LAYOUT_CHAR_TABLE) :
    ∃ e, layout_char_sum acc l = Except.error e := by
  induction l generalizing acc with
  | nil =>
    obtain ⟨c, hc, -⟩ := h
    cases hc
  | cons x xs ih =>
    by_cases hx : x ∈ LAYOUT_CHAR_TABLE
    · obtain ⟨c, hc, hcn⟩ := h
      have hcs : c ∈ xs := by
        rcases List.mem_cons.mp hc with rfl | h2
        · exact absurd hx hcn
        · exact h2
      cases hf : LAYOUT_CHAR_TABLE.findIdx? (fun i => i == x) with
      | none => exact ⟨_, by unfold layout_char_sum; rw [hf]⟩
      | some idx =>
        obtain ⟨e, he⟩ := ih (acc * 64 + idx) ⟨c, hcs, hcn⟩
        exact ⟨e, by unfold layout_char_sum; rw [hf]; exact he⟩
    · have hf : LAYOUT_CHAR_TABLE.findIdx? (fun i => i == x) = none :=
        List.findIdx?_eq_none_iff.mpr (fun y hy => by
          simp only [beq_eq_false_iff_ne]
          exact fun he => hx (he ▸ hy))
      exact ⟨_, by unfold layout_char_sum; rw [hf]⟩

/-- C10: `parse_layout` rejects any string containing a non-ASCII
character, any string whose elevator section (before the first dot,
defaulted when absent) is not exactly 16 characters, and any string whose
pickup section (after the optional leading bang) is not exactly 87
characters; and `parse_layout_chars_to_ints` errors whenever some input
byte is outside the 64-character layout alphabet, and whenever the
embedded checksum of a decoded input differs from the recomputed
checksum. -/
theorem parse_layout_validation :
    (∀ s : String, (∃ c ∈ s.data, 128 ≤ c.toNat) →
      parse_layout s = Except.error "Layout string contains non-ascii characters.") ∧
    (∀ s : String, (∀ c ∈ s.data, c.toNat < 128) →
      (layout_sections (s.data.map Char.toNat)).1.length ≠ 16 →
      parse_layout s = Except.error
        "The section of the layout string before the dot should be 16 characters") ∧
    (∀ s : String, (∀ c ∈ s.data, c.toNat < 128) →
      (layout_sections (s.data.map Char.toNat)).1.length = 16 →
      (pickup_section (layout_sections (s.data.map Char.toNat)).2).length ≠ 87 →
      parse_layout s = Except.error "Layout string should be exactly 87 characters") ∧
    (∀ (bytes : List Nat) (lds cs : Nat) (is : List Nat),
      (∃ c ∈ bytes, c ∉ LAYOUT_CHAR_TABLE) →
      ∃ e, parse_layout_chars_to_ints bytes lds cs is = Except.error e) ∧
    (∀ (bytes : List Nat) (lds cs : Nat) (is : List Nat) (sum1 : Nat),
      layout_decoded_sum bytes = Except.ok sum1 →
      layout_checksum lds cs sum1 ≠ layout_computed_checksum lds cs sum1 →
      parse_layout_chars_to_ints bytes lds cs is =
        Except.error "Layout checksum failed.") := by
  refine ⟨?_, ?_, ?_, ?_, ?_⟩
  · rintro s ⟨c, hc, h128⟩
    have hna : ¬ (∀ c ∈ s.data, c.toNat < 128) := fun hall => by
      have := hall c hc
      omega
    simp only [parse_layout, if_pos hna]
  · intro s hascii hlen
    simp only [parse_layout, if_neg (not_not_intro hascii)]
    rw [if_pos hlen]
  · intro s hascii hlen16 hlen87
    simp only [parse_layout, if_neg (not_not_intro hascii)]
    rw [if_neg (by omega : ¬ (layout_sections (s.data.map Char.toNat)).1.length ≠ 16)]
    rw [if_pos hlen87]
  · rintro bytes lds cs is ⟨c, hc, hcn⟩
    obtain ⟨e, he⟩ := layout_char_sum_error 0 bytes.reverse
      ⟨c, List.mem_reverse.mpr hc, hcn⟩
    refine ⟨e, ?_⟩
    unfold parse_layout_chars_to_ints layout_decoded_sum
    rw [he]
  · intro bytes lds cs is sum1 hdec hne
    unfold parse_layout_chars_to_ints
    rw [hdec]
    exact if_pos hne

/-- Witness for the C10 theorem: a non-ASCII string, a 2-character
elevator section, a 3-character pickup section, a byte outside the
alphabet, and a one-character input whose embedded checksum bit
disagrees with the recomputed one. -/
theorem parse_layout_validation_witness :
    parse_layout "héllo" =
      Except.error "Layout string contains non-ascii characters." ∧
    parse_layout "ab.x" = Except.error
      "The section of the layout string before the dot should be 16 characters" ∧
    parse_layout "qzoCAr2fwehJmRjM.abc" =
      Except.error "Layout string should be exactly 87 characters" ∧
    (∃ e, parse_layout_chars_to_ints [33] 91 5 [] = Except.error e) ∧
    parse_layout_chars_to_ints [66] 0 1 [] = Except.error "Layout checksum failed." :=
  ⟨parse_layout_validation.1 "héllo" (by decide),
   parse_layout_validation.2.1 "ab.x" (by decide) (by decide),
   parse_layout_validation.2.2.1 "qzoCAr2fwehJmRjM.abc" (by decide) (by decide)
     (by decide),
   parse_layout_validation.2.2.2.1 [33] 91 5 [] (by decide),
   parse_layout_validation.2.2.2.2 [66] 0 1 [] 1 (by rfl) (by decide)⟩
